import Mathlib

/-!
Lima: a shallow embedding of `include/lima.hpp`

The header defines one class, `lm::Logger`, a set of flag constants, the
enumeration `lm::LogType`, and two process-wide filter tables that every
`Logger` shares.  The embedding below follows the header declaration by
declaration:

* `flag` (`unsigned int`) is a natural number; the only operation of the header
  whose result depends on the width is `~`, modelled by `bitNot` on 32 bits;
* the static members `s_logTypeFilter` and `s_logTagFilter` form the record
  `Statics`, which every operation that touches them receives and returns;
* an access to `s_logTypeFilter` outside the array is undefined in C++ and is
  `none` here;
* `std::unordered_map::operator[]` inserts a value-initialised (`false`) entry
  when the key is absent, also when it is only read;
* what `std::cout` receives is returned as the list of strings written to it;
* the wall clock read by `timestamp()` is an input, the string `p_time`.
-/

namespace lm

/-! ## Flags -/

/-- The C++ `typedef unsigned int flag;`. -/
abbrev flag := Nat

/-- Width in bits of `unsigned int`. -/
def flagBits : Nat := 32

/-- The operator `~` on an `unsigned int`: every one of the 32 bits flipped. -/
def bitNot (p_flag : flag) : flag := (2 ^ flagBits - 1) ^^^ (p_flag % 2 ^ flagBits)

namespace flags

def TIMESTAMPS_PREFIX : flag := 1 <<< 0
def LOGTYPES_PREFIX : flag := 1 <<< 1
def WHITESPACE_PREFIX : flag := 1 <<< 2
def LOGTAG_PREFIX : flag := 1 <<< 3
def LOGTYPE_COLORS : flag := 1 <<< 4
def LOGTYPE_FILTER : flag := 1 <<< 5
def LOGTAG_FILTER : flag := 1 <<< 6
def WHITELIST_FILTER : flag := 1 <<< 7
def END_OF_LINE_SUFFIX : flag := 1 <<< 8

def DEFAULTS : flag :=
  TIMESTAMPS_PREFIX |||
  LOGTYPES_PREFIX |||
  WHITESPACE_PREFIX |||
  LOGTAG_PREFIX |||
  LOGTYPE_COLORS |||
  LOGTYPE_FILTER |||
  LOGTAG_FILTER |||
  END_OF_LINE_SUFFIX

end flags

/-! ## Severity levels -/

/-- The enumeration `enum class LogType`, with all seven enumerators it declares. -/
inductive LogType where
  | Trace
  | Debug
  | Info
  | Warning
  | Error
  | Fatal
  | LogTypeCount
  deriving DecidableEq, Repr

/-- The cast `(size_t)p_logType`: the position of the enumerator in the declaration. -/
def LogType.toSizeT : LogType → Nat
  | .Trace => 0
  | .Debug => 1
  | .Info => 2
  | .Warning => 3
  | .Error => 4
  | .Fatal => 5
  | .LogTypeCount => 6

/-- The label `lm::str(p_logType)`. -/
def str : LogType → String
  | .Trace => "[Trace]"
  | .Debug => "[Debug]"
  | .Info => "[Info]"
  | .Warning => "[Warning]"
  | .Error => "[Error]"
  | .Fatal => "[Fatal]"
  | _ => ""

/-- The ANSI code `Logger::color(p_logType)`; `\033` is the escape character. -/
def color : LogType → String
  | .Trace => "\x1b[0m"
  | .Debug => "\x1b[32m"
  | .Info => "\x1b[34m"
  | .Warning => "\x1b[33m"
  | .Error => "\x1b[31m"
  | .Fatal => "\x1b[37;41m"
  | _ => "\x1b[0m"

/-! ## The static filter tables -/

/-- Number of elements of `s_logTypeFilter`, `(size_t)LogType::LogTypeCount`. -/
abbrev logTypeFilterSize : Nat := 6

/-- The static data members of `Logger`: `bool s_logTypeFilter[6]` and
`std::unordered_map<std::string, bool> s_logTagFilter`. -/
structure Statics where
  s_logTypeFilter : Fin logTypeFilterSize → Bool
  s_logTagFilter : String → Option Bool

/-- The tables at program start: `{ false }` and `{}`. -/
def Statics.init : Statics where
  s_logTypeFilter := fun _ => false
  s_logTagFilter := fun _ => none

/-- Reading `s_logTypeFilter[i]`; the array has no element at or after its size. -/
def Statics.typeFilterAt (st : Statics) (i : Nat) : Option Bool :=
  if h : i < logTypeFilterSize then some (st.s_logTypeFilter ⟨i, h⟩) else none

/-- The assignment `s_logTypeFilter[i] = b`. -/
def Statics.typeFilterAssign (st : Statics) (i : Nat) (b : Bool) : Option Statics :=
  if h : i < logTypeFilterSize then
    some { st with s_logTypeFilter := Function.update st.s_logTypeFilter ⟨i, h⟩ b }
  else none

/-- Reading `s_logTagFilter[k]`: an absent key is inserted with the value `false`. -/
def Statics.tagFilterAt (st : Statics) (k : String) : Bool × Statics :=
  match st.s_logTagFilter k with
  | some b => (b, st)
  | none => (false, { st with s_logTagFilter := Function.update st.s_logTagFilter k (some false) })

/-- The assignment `s_logTagFilter[k] = b`. -/
def Statics.tagFilterAssign (st : Statics) (k : String) (b : Bool) : Statics :=
  { st with s_logTagFilter := Function.update st.s_logTagFilter k (some b) }

/-! ## Message arguments -/

/-- A value handed to `log`: the kinds of argument whose `operator<<` output is
fixed by the language or by this header. -/
inductive Arg where
  | text (s : String)
  | int (i : Int)
  | chr (c : Char)
  | bool (b : Bool)
  | logType (t : LogType)

/-- What `stream << p_arg` appends for one argument (default stream state:
decimal integers, `bool` as `1` or `0`, `LogType` through `str`). -/
def Arg.shown : Arg → String
  | .text s => s
  | .int i => toString i
  | .chr c => String.singleton c
  | .bool b => if b then "1" else "0"
  | .logType t => str t

/-! ## The class `Logger` -/

/-- The non-static data members of a `Logger`. -/
structure Logger where
  m_logTag : String
  m_flags : flag

/-- The constructor `Logger(p_logTag, p_flags)`. -/
def Logger.new (p_logTag : String) (p_flags : flag) (st : Statics) : Logger × Statics :=
  ({ m_logTag := p_logTag, m_flags := p_flags }, st.tagFilterAssign p_logTag false)

def Logger.isFlagSet (lg : Logger) (p_flag : flag) : Bool :=
  0 != (lg.m_flags &&& p_flag)

/-- The member `Logger::prefix`, building its stream piece by piece. -/
def Logger.prefix (lg : Logger) (p_time : String) (p_logType : LogType) : String :=
  let stream := ""
  let stream := if lg.isFlagSet flags.LOGTYPE_COLORS then stream ++ color p_logType else stream
  let stream := if lg.isFlagSet flags.TIMESTAMPS_PREFIX then stream ++ p_time else stream
  let stream := if lg.isFlagSet flags.LOGTYPES_PREFIX then stream ++ str p_logType else stream
  let stream := if lg.isFlagSet flags.LOGTAG_PREFIX then stream ++ "[" ++ lg.m_logTag ++ "]" else stream
  let stream := if lg.isFlagSet flags.WHITESPACE_PREFIX then stream ++ "    " else stream
  stream

def Logger.suffix (lg : Logger) : String :=
  let stream := ""
  let stream := if lg.isFlagSet flags.LOGTYPE_COLORS then stream ++ "\x1b[0m" else stream
  let stream := if lg.isFlagSet flags.END_OF_LINE_SUFFIX then stream ++ "\n" else stream
  stream

/-- The two overloads of `Logger::fmt`: one argument, or one argument followed by more. -/
def Logger.fmt : Arg → List Arg → String
  | p_arg, [] => "" ++ p_arg.shown
  | p_arg, a :: p_args => "" ++ p_arg.shown ++ Logger.fmt a p_args

/-- The overload `filter(LogType)`. -/
def Logger.filter (lg : Logger) (p_logType : LogType) (st : Statics) : Option Bool :=
  (st.typeFilterAt p_logType.toSizeT).map fun marked => lg.isFlagSet flags.WHITELIST_FILTER != marked

/-- The overload `filter()`, on the logger's own tag. -/
def Logger.filterTag (lg : Logger) (st : Statics) : Bool × Statics :=
  let r := st.tagFilterAt lg.m_logTag
  (lg.isFlagSet flags.WHITELIST_FILTER != r.1, r.2)

/-- The member `Logger::output`: the new tables and what was written to `std::cout`. -/
def Logger.output (lg : Logger) (p_logType : LogType) (p_message : String) (st : Statics) :
    Option (Statics × List String) :=
  match (if lg.isFlagSet flags.LOGTYPE_FILTER then lg.filter p_logType st else some false) with
  | none => none
  | some true => some (st, [])
  | some false =>
    match (if lg.isFlagSet flags.LOGTAG_FILTER then lg.filterTag st else (false, st)) with
    | (true, st1) => some (st1, [])
    | (false, st1) => some (st1, [p_message])

/-- The string `log` hands to `output`: `prefix`, the formatted arguments, `suffix`. -/
def Logger.message (lg : Logger) (p_time : String) (p_logType : LogType) (body : String) : String :=
  "" ++ Logger.prefix lg p_time p_logType ++ body ++ lg.suffix

/-- The member `Logger::log(p_logType, p_arg, p_args...)`. -/
def Logger.log (lg : Logger) (p_time : String) (p_logType : LogType) (p_arg : Arg) (p_args : List Arg)
    (st : Statics) : Option (Statics × List String) :=
  lg.output p_logType (lg.message p_time p_logType (Logger.fmt p_arg p_args)) st

def Logger.setFlag (lg : Logger) (p_flag : flag) : Logger :=
  { lg with m_flags := lg.m_flags ||| p_flag }

def Logger.clearFlag (lg : Logger) (p_flag : flag) : Logger :=
  { lg with m_flags := lg.m_flags &&& bitNot p_flag }

/-- The overload `setFilter(LogType)`. -/
def Logger.setFilter (p_logType : LogType) (st : Statics) : Option Statics :=
  st.typeFilterAssign p_logType.toSizeT true

/-- The overload `setFilter(std::string)`. -/
def Logger.setFilterTag (p_logTag : String) (st : Statics) : Statics :=
  st.tagFilterAssign p_logTag true

/-- The overload `clearFilter(LogType)`. -/
def Logger.clearFilter (p_logType : LogType) (st : Statics) : Option Statics :=
  st.typeFilterAssign p_logType.toSizeT false

/-- The overload `clearFilter(std::string)`. -/
def Logger.clearFilterTag (p_logTag : String) (st : Statics) : Statics :=
  st.tagFilterAssign p_logTag false

/-- The static `Logger::Main`, constructed from the initial tables. -/
def Logger.Main : Logger × Statics := Logger.new "LIMA" flags.DEFAULTS Statics.init

/-! ## Programs over the interface -/

/-- The nine constants of `lm::flags` that name one flag each, in declaration order. -/
def namedFlags : List flag :=
  [flags.TIMESTAMPS_PREFIX, flags.LOGTYPES_PREFIX, flags.WHITESPACE_PREFIX, flags.LOGTAG_PREFIX,
    flags.LOGTYPE_COLORS, flags.LOGTYPE_FILTER, flags.LOGTAG_FILTER, flags.WHITELIST_FILTER,
    flags.END_OF_LINE_SUFFIX]

/-- One call on the public interface.  A `Logger` object is named by its position
in the order of construction; `Main` is object 0. -/
inductive Op where
  | construct (p_logTag : String) (p_flags : flag)
  | log (i : Nat) (p_time : String) (p_logType : LogType) (p_arg : Arg) (p_args : List Arg)
  | setFlag (i : Nat) (p_flag : flag)
  | clearFlag (i : Nat) (p_flag : flag)
  | setFilter (p_logType : LogType)
  | setFilterTag (p_logTag : String)
  | clearFilter (p_logType : LogType)
  | clearFilterTag (p_logTag : String)

/-- The state of a process: the static tables, every `Logger` constructed so far
and everything written to `std::cout`. -/
structure World where
  statics : Statics
  loggers : List Logger
  cout : List String

/-- The process once its static initialisation has run: `Main` exists. -/
def World.init : World where
  statics := Logger.Main.2
  loggers := [Logger.Main.1]
  cout := []

/-- The effect of one call; `none` where the call is undefined (an object that
does not exist, an index outside `s_logTypeFilter`). -/
def World.step (w : World) : Op → Option World
  | .construct p_logTag p_flags =>
    some { w with
      statics := (Logger.new p_logTag p_flags w.statics).2
      loggers := w.loggers ++ [(Logger.new p_logTag p_flags w.statics).1] }
  | .log i p_time p_logType p_arg p_args =>
    match w.loggers[i]? with
    | none => none
    | some lg =>
      (lg.log p_time p_logType p_arg p_args w.statics).map fun r =>
        { w with statics := r.1, cout := w.cout ++ r.2 }
  | .setFlag i p_flag =>
    match w.loggers[i]? with
    | none => none
    | some lg => some { w with loggers := w.loggers.set i (lg.setFlag p_flag) }
  | .clearFlag i p_flag =>
    match w.loggers[i]? with
    | none => none
    | some lg => some { w with loggers := w.loggers.set i (lg.clearFlag p_flag) }
  | .setFilter p_logType =>
    (Logger.setFilter p_logType w.statics).map fun st => { w with statics := st }
  | .setFilterTag p_logTag => some { w with statics := Logger.setFilterTag p_logTag w.statics }
  | .clearFilter p_logType =>
    (Logger.clearFilter p_logType w.statics).map fun st => { w with statics := st }
  | .clearFilterTag p_logTag => some { w with statics := Logger.clearFilterTag p_logTag w.statics }

/-- A sequence of calls, one after the other. -/
def World.run (w : World) : List Op → Option World
  | [] => some w
  | op :: ops => (w.step op).bind fun w1 => w1.run ops

/-- The tag a call constructs a `Logger` with, if it is a construction. -/
def Op.constructedTags : Op → List String
  | .construct p_logTag _ => [p_logTag]
  | _ => []

/-- The tags a sequence of calls constructs a `Logger` with, in order. -/
def tagsConstructed : List Op → List String
  | [] => []
  | op :: ops => op.constructedTags ++ tagsConstructed ops

/-! ## Auxiliary facts -/

theorem empty_append (s : String) : "" ++ s = s := by
  apply String.ext
  simp

theorem join_cons (s : String) (ss : List String) : String.join (s :: ss) = s ++ String.join ss := by
  apply String.ext
  simp [String.join_eq]

theorem toSizeT_lt (p_logType : LogType) (h : p_logType ≠ LogType.LogTypeCount) :
    p_logType.toSizeT < logTypeFilterSize := by
  cases p_logType <;> first | exact absurd rfl h | decide

theorem typeFilterAt_of_lt (st : Statics) (i : Nat) (h : i < logTypeFilterSize) :
    st.typeFilterAt i = some (st.s_logTypeFilter ⟨i, h⟩) := by
  simp [Statics.typeFilterAt, h]

theorem fmt_eq_join (p_arg : Arg) (p_args : List Arg) :
    Logger.fmt p_arg p_args = String.join ((p_arg :: p_args).map Arg.shown) := by
  induction p_args generalizing p_arg with
  | nil => simp [Logger.fmt, join_cons, empty_append, String.join]
  | cons a rest ih =>
    rw [Logger.fmt, ih a, empty_append]
    simp only [List.map_cons, join_cons]

theorem toSizeT_injective (a b : LogType) (h : a.toSizeT = b.toSizeT) : a = b := by
  cases a <;> cases b <;> first | rfl | exact absurd h (by decide)

/-- The assignment `s_logTypeFilter[(size_t)p_logType] = b` at a severity level. -/
theorem typeFilterAssign_level (st : Statics) (p_logType : LogType) (b : Bool)
    (hlevel : p_logType ≠ LogType.LogTypeCount) :
    ∃ st1, st.typeFilterAssign p_logType.toSizeT b = some st1 ∧
      st1.typeFilterAt p_logType.toSizeT = some b ∧
      (∀ other : LogType, other ≠ p_logType →
        st1.typeFilterAt other.toSizeT = st.typeFilterAt other.toSizeT) ∧
      (∀ i : Fin logTypeFilterSize, i.val ≠ p_logType.toSizeT →
        st1.s_logTypeFilter i = st.s_logTypeFilter i) ∧
      st1.s_logTagFilter = st.s_logTagFilter := by
  have hlt := toSizeT_lt p_logType hlevel
  refine ⟨{ st with s_logTypeFilter := Function.update st.s_logTypeFilter ⟨p_logType.toSizeT, hlt⟩ b },
    by simp only [Statics.typeFilterAssign, hlt, dite_true], ?_, ?_, ?_, rfl⟩
  · simp [Statics.typeFilterAt, hlt]
  · intro other hne
    have hidx : other.toSizeT ≠ p_logType.toSizeT := fun h => hne (toSizeT_injective _ _ h)
    unfold Statics.typeFilterAt
    by_cases ho : other.toSizeT < logTypeFilterSize
    · simp only [ho, dite_true]
      rw [Function.update_noteq]
      intro h
      exact hidx (congrArg Fin.val h)
    · simp only [ho, dite_false]
  · intro i hi
    show Function.update st.s_logTypeFilter ⟨p_logType.toSizeT, hlt⟩ b i = st.s_logTypeFilter i
    rw [Function.update_noteq]
    intro h
    exact hi (congrArg Fin.val h)

/-- The assignment `s_logTagFilter[k] = b`. -/
theorem tagFilterAssign_effect (st : Statics) (k : String) (b : Bool) :
    (st.tagFilterAssign k b).s_logTagFilter k = some b ∧
    (∀ other, other ≠ k →
      (st.tagFilterAssign k b).s_logTagFilter other = st.s_logTagFilter other) ∧
    (st.tagFilterAssign k b).s_logTypeFilter = st.s_logTypeFilter := by
  refine ⟨by simp [Statics.tagFilterAssign], ?_, rfl⟩
  intro other hne
  simp [Statics.tagFilterAssign, Function.update_noteq hne]

/-- The layout of the string `log` composes. -/
theorem message_eq (lg : Logger) (p_time : String) (p_logType : LogType) (body : String) :
    lg.message p_time p_logType body =
      (if lg.isFlagSet flags.LOGTYPE_COLORS then color p_logType else "") ++
      (if lg.isFlagSet flags.TIMESTAMPS_PREFIX then p_time else "") ++
      (if lg.isFlagSet flags.LOGTYPES_PREFIX then str p_logType else "") ++
      (if lg.isFlagSet flags.LOGTAG_PREFIX then "[" ++ lg.m_logTag ++ "]" else "") ++
      (if lg.isFlagSet flags.WHITESPACE_PREFIX then "    " else "") ++
      body ++
      (if lg.isFlagSet flags.LOGTYPE_COLORS then "\x1b[0m" else "") ++
      (if lg.isFlagSet flags.END_OF_LINE_SUFFIX then "\n" else "") := by
  unfold Logger.message Logger.prefix Logger.suffix
  cases lg.isFlagSet flags.LOGTYPE_COLORS <;> cases lg.isFlagSet flags.TIMESTAMPS_PREFIX <;>
    cases lg.isFlagSet flags.LOGTYPES_PREFIX <;> cases lg.isFlagSet flags.LOGTAG_PREFIX <;>
    cases lg.isFlagSet flags.WHITESPACE_PREFIX <;>
    cases lg.isFlagSet flags.END_OF_LINE_SUFFIX <;>
    simp [String.append_assoc]

/-- The decision `output` takes, for a level whose table entry is `sev`. -/
theorem output_eq (lg : Logger) (p_logType : LogType) (p_message : String) (st : Statics)
    (sev : Bool) (hsev : st.typeFilterAt p_logType.toSizeT = some sev) :
    lg.output p_logType p_message st =
      some (if lg.isFlagSet flags.LOGTYPE_FILTER && (lg.isFlagSet flags.WHITELIST_FILTER != sev)
            then st
            else if lg.isFlagSet flags.LOGTAG_FILTER then (st.tagFilterAt lg.m_logTag).2 else st,
        if (lg.isFlagSet flags.LOGTYPE_FILTER && (lg.isFlagSet flags.WHITELIST_FILTER != sev))
            || (lg.isFlagSet flags.LOGTAG_FILTER &&
                (lg.isFlagSet flags.WHITELIST_FILTER != (st.tagFilterAt lg.m_logTag).1))
        then [] else [p_message]) := by
  unfold Logger.output Logger.filter Logger.filterTag
  rw [hsev]
  rcases st.tagFilterAt lg.m_logTag with ⟨marked, st1⟩
  cases lg.isFlagSet flags.LOGTYPE_FILTER <;> cases lg.isFlagSet flags.LOGTAG_FILTER <;>
    cases lg.isFlagSet flags.WHITELIST_FILTER <;> cases sev <;> cases marked <;> simp

/-! ## Construction and the tag filter table -/

/-- C1, as the specification states it, fails: after `setFilter("X")` the marker of
`"X"` is true, and constructing a `Logger` with tag `"X"` afterwards leaves it false. -/
theorem construct_after_setFilter_overwrites :
    (Logger.setFilterTag "X" Statics.init).s_logTagFilter "X" = some true ∧
    (Logger.new "X" flags.DEFAULTS (Logger.setFilterTag "X" Statics.init)).2.s_logTagFilter "X"
      = some false := by
  decide

/-- C1, amended: the constructor assigns `false` to the entry of its tag
unconditionally.  Whatever the tables held, the marker of `T` is false after a
`Logger` with tag `T` is constructed; in particular a marker that `setFilter(T)`
made true is false again after the construction. -/
theorem construct_assigns_false (T : String) (p_flags : flag) (st : Statics) :
    (Logger.new T p_flags st).2.s_logTagFilter T = some false ∧
    (Logger.setFilterTag T st).s_logTagFilter T = some true ∧
    (Logger.new T p_flags (Logger.setFilterTag T st)).2.s_logTagFilter T = some false := by
  simp [Logger.new, Logger.setFilterTag, Statics.tagFilterAssign]

/-! ## What `log` writes -/

/-- C2: for every logger, severity level, argument list and state of the two
tables, `log` returns, and what it writes is nothing when
(`LOGTYPE_FILTER` is set and `isFlagSet(WHITELIST_FILTER) != s_logTypeFilter[level]`) or
(`LOGTAG_FILTER` is set and `isFlagSet(WHITELIST_FILTER) != s_logTagFilter[m_logTag]`),
and otherwise the one string prefix + body + suffix. -/
theorem log_writes_nothing_or_line (lg : Logger) (p_time : String) (p_logType : LogType)
    (p_arg : Arg) (p_args : List Arg) (st : Statics)
    (hlevel : p_logType ≠ LogType.LogTypeCount) :
    ∃ (sev : Bool) (st1 : Statics),
      st.typeFilterAt p_logType.toSizeT = some sev ∧
      lg.log p_time p_logType p_arg p_args st =
        some (st1,
          if (lg.isFlagSet flags.LOGTYPE_FILTER && (lg.isFlagSet flags.WHITELIST_FILTER != sev))
              || (lg.isFlagSet flags.LOGTAG_FILTER &&
                  (lg.isFlagSet flags.WHITELIST_FILTER != (st.tagFilterAt lg.m_logTag).1))
          then []
          else [ Logger.prefix lg p_time p_logType ++ Logger.fmt p_arg p_args ++ lg.suffix]) := by
  have hlt := toSizeT_lt p_logType hlevel
  have hout := output_eq lg p_logType (lg.message p_time p_logType (Logger.fmt p_arg p_args)) st _
    (typeFilterAt_of_lt st _ hlt)
  rw [Logger.message, empty_append] at hout
  exact ⟨_, _, typeFilterAt_of_lt st _ hlt, hout⟩

theorem log_writes_nothing_or_line_witness :
    ∃ (sev : Bool) (st1 : Statics),
      Logger.Main.2.typeFilterAt LogType.Info.toSizeT = some sev ∧
      Logger.Main.1.log "[12:00:00]" LogType.Info (Arg.text "up") [] Logger.Main.2 =
        some (st1,
          if (Logger.Main.1.isFlagSet flags.LOGTYPE_FILTER &&
                (Logger.Main.1.isFlagSet flags.WHITELIST_FILTER != sev))
              || (Logger.Main.1.isFlagSet flags.LOGTAG_FILTER &&
                  (Logger.Main.1.isFlagSet flags.WHITELIST_FILTER !=
                    (Logger.Main.2.tagFilterAt Logger.Main.1.m_logTag).1))
          then []
          else [ Logger.prefix Logger.Main.1 "[12:00:00]" LogType.Info ++
                  Logger.fmt (Arg.text "up") [] ++ Logger.Main.1.suffix]) :=
  log_writes_nothing_or_line Logger.Main.1 "[12:00:00]" LogType.Info (Arg.text "up") []
    Logger.Main.2 (by decide)

/-- C3: the line `log` composes is, in this order, the colour code of the level
(if `LOGTYPE_COLORS`), the timestamp (if `TIMESTAMPS_PREFIX`), the label of the level
(if `LOGTYPES_PREFIX`), the tag in brackets (if `LOGTAG_PREFIX`), four spaces
(if `WHITESPACE_PREFIX`), the body, the reset code (if `LOGTYPE_COLORS`) and a newline
(if `END_OF_LINE_SUFFIX`); `log` hands exactly this string to `output`; and with
the label, tag and whitespace flags alone and tag `"X"`, `log(Warning, "hi")`
writes `"[Warning][X]    hi"`. -/
theorem message_layout (lg : Logger) (p_time : String) (p_logType : LogType) (body : String)
    (p_arg : Arg) (p_args : List Arg) (st : Statics) :
    lg.message p_time p_logType body =
      (if lg.isFlagSet flags.LOGTYPE_COLORS then color p_logType else "") ++
      (if lg.isFlagSet flags.TIMESTAMPS_PREFIX then p_time else "") ++
      (if lg.isFlagSet flags.LOGTYPES_PREFIX then str p_logType else "") ++
      (if lg.isFlagSet flags.LOGTAG_PREFIX then "[" ++ lg.m_logTag ++ "]" else "") ++
      (if lg.isFlagSet flags.WHITESPACE_PREFIX then "    " else "") ++
      body ++
      (if lg.isFlagSet flags.LOGTYPE_COLORS then "\x1b[0m" else "") ++
      (if lg.isFlagSet flags.END_OF_LINE_SUFFIX then "\n" else "") ∧
    lg.log p_time p_logType p_arg p_args st =
      lg.output p_logType (lg.message p_time p_logType (Logger.fmt p_arg p_args)) st ∧
    str LogType.Warning = "[Warning]" ∧
    Logger.log
        { m_logTag := "X",
          m_flags := flags.LOGTYPES_PREFIX ||| flags.LOGTAG_PREFIX ||| flags.WHITESPACE_PREFIX }
        p_time LogType.Warning (Arg.text "hi") [] st
      = some (st, ["[Warning][X]    hi"]) := by
  refine ⟨message_eq lg p_time p_logType body, rfl, rfl, ?_⟩
  have h1 : Logger.isFlagSet
      { m_logTag := "X",
        m_flags := flags.LOGTYPES_PREFIX ||| flags.LOGTAG_PREFIX ||| flags.WHITESPACE_PREFIX }
      flags.LOGTYPE_FILTER = false := by decide
  have h2 : Logger.isFlagSet
      { m_logTag := "X",
        m_flags := flags.LOGTYPES_PREFIX ||| flags.LOGTAG_PREFIX ||| flags.WHITESPACE_PREFIX }
      flags.LOGTAG_FILTER = false := by decide
  have hc : (0 != (14 &&& flags.LOGTYPE_COLORS)) = false := by decide
  have ht : (0 != (14 &&& flags.TIMESTAMPS_PREFIX)) = false := by decide
  have hl : (0 != (14 &&& flags.LOGTYPES_PREFIX)) = true := by decide
  have hg : (0 != (14 &&& flags.LOGTAG_PREFIX)) = true := by decide
  have hw : (0 != (14 &&& flags.WHITESPACE_PREFIX)) = true := by decide
  have he : (0 != (14 &&& flags.END_OF_LINE_SUFFIX)) = false := by decide
  have hline : (((((("" ++ "") ++ str LogType.Warning) ++ ("[" ++ "X" ++ "]")) ++ "    ") ++
      Logger.fmt (Arg.text "hi") [] ++ "") ++ "") = "[Warning][X]    hi" := by decide
  have hflag : ∀ f, Logger.isFlagSet
      { m_logTag := "X",
        m_flags := flags.LOGTYPES_PREFIX ||| flags.LOGTAG_PREFIX ||| flags.WHITESPACE_PREFIX } f
      = (0 != (14 &&& f)) := fun _ => rfl
  rw [Logger.log, Logger.output, h1, h2, message_eq]
  simp only [hflag, hc, ht, hl, hg, hw, he, Bool.false_eq_true, if_false, if_true, hline]

/-- C4: a logger whose flag set is empty writes, for every level and every
non-empty argument list, exactly the concatenation of the arguments' textual
forms in argument order, and leaves the tables as they were; for the arguments
`"a"`, `1`, `"b"` that is `"a1b"`. -/
theorem log_plain_concatenation (lg : Logger) (p_time : String) (p_logType : LogType)
    (p_arg : Arg) (p_args : List Arg) (st : Statics) (hflags : lg.m_flags = 0) :
    lg.log p_time p_logType p_arg p_args st =
      some (st, [String.join ((p_arg :: p_args).map Arg.shown)]) ∧
    lg.log p_time p_logType (Arg.text "a") [Arg.int 1, Arg.text "b"] st = some (st, ["a1b"]) := by
  have hflag : ∀ f, lg.isFlagSet f = false := by
    intro f
    simp [Logger.isFlagSet, hflags]
  have hlog : ∀ (a : Arg) (l : List Arg),
      lg.log p_time p_logType a l st = some (st, [ Logger.fmt a l]) := by
    intro a l
    rw [Logger.log, message_eq]
    simp [Logger.output, hflag, empty_append]
  refine ⟨?_, ?_⟩
  · rw [hlog, fmt_eq_join]
  · have habc : Logger.fmt (Arg.text "a") [Arg.int 1, Arg.text "b"] = "a1b" := by decide
    rw [hlog, habc]

theorem log_plain_concatenation_witness :
    (Logger.mk "X" 0).m_flags = 0 ∧
    (Logger.mk "X" 0).log "[12:00:00]" LogType.Error (Arg.int 4) [Arg.text "0", Arg.int 4]
        Statics.init =
      some (Statics.init, [String.join ((Arg.int 4 :: [Arg.text "0", Arg.int 4]).map Arg.shown)]) :=
  ⟨rfl, (log_plain_concatenation (Logger.mk "X" 0) "[12:00:00]" LogType.Error (Arg.int 4)
    [Arg.text "0", Arg.int 4] Statics.init rfl).1⟩

/-! ## The severity filter -/

/-- C5: with `LOGTYPE_FILTER` set and `WHITELIST_FILTER` clear, `log` at a level
whose entry of the severity filter table is true writes nothing, whatever the
other flags and the tag filter table are (and leaves the tables as they were). -/
theorem blacklisted_level_writes_nothing (lg : Logger) (p_time : String) (p_logType : LogType)
    (p_arg : Arg) (p_args : List Arg) (st : Statics)
    (hfilter : lg.isFlagSet flags.LOGTYPE_FILTER = true)
    (hpolarity : lg.isFlagSet flags.WHITELIST_FILTER = false)
    (hmarked : st.typeFilterAt p_logType.toSizeT = some true) :
    lg.log p_time p_logType p_arg p_args st = some (st, []) := by
  rw [Logger.log, output_eq lg p_logType _ st true hmarked]
  simp [hfilter, hpolarity]

theorem blacklisted_level_writes_nothing_witness :
    Logger.Main.1.isFlagSet flags.LOGTYPE_FILTER = true ∧
    Logger.Main.1.isFlagSet flags.WHITELIST_FILTER = false ∧
    (Statics.mk (fun i => decide (i.val = 1)) (fun _ => none)).typeFilterAt
      LogType.Debug.toSizeT = some true ∧
    Logger.Main.1.log "[12:00:00]" LogType.Debug (Arg.text "x") []
        (Statics.mk (fun i => decide (i.val = 1)) (fun _ => none)) =
      some (Statics.mk (fun i => decide (i.val = 1)) (fun _ => none), []) :=
  ⟨by decide, by decide, by decide,
    blacklisted_level_writes_nothing Logger.Main.1 "[12:00:00]" LogType.Debug (Arg.text "x") []
      (Statics.mk (fun i => decide (i.val = 1)) (fun _ => none))
      (by decide) (by decide) (by decide)⟩

/-- C6, as the specification states it, fails: a logger with `LOGTYPE_FILTER`,
`LOGTAG_FILTER` and `WHITELIST_FILTER` set and tag `"X"`, constructed in the
initial state, writes nothing at level `Warning` after `setFilter(Warning)`. -/
theorem whitelisted_level_dropped_by_tag_filter :
    (Logger.mk "X" (flags.LOGTYPE_FILTER ||| flags.LOGTAG_FILTER ||| flags.WHITELIST_FILTER)).isFlagSet
      flags.LOGTYPE_FILTER = true ∧
    (Logger.mk "X" (flags.LOGTYPE_FILTER ||| flags.LOGTAG_FILTER ||| flags.WHITELIST_FILTER)).isFlagSet
      flags.WHITELIST_FILTER = true ∧
    (Logger.setFilter LogType.Warning
      (Logger.new "X" (flags.LOGTYPE_FILTER ||| flags.LOGTAG_FILTER ||| flags.WHITELIST_FILTER)
        Statics.init).2).bind
      (fun st => st.typeFilterAt LogType.Warning.toSizeT) = some true ∧
    (Logger.setFilter LogType.Warning
      (Logger.new "X" (flags.LOGTYPE_FILTER ||| flags.LOGTAG_FILTER ||| flags.WHITELIST_FILTER)
        Statics.init).2).bind
      (fun st =>
        ((Logger.new "X" (flags.LOGTYPE_FILTER ||| flags.LOGTAG_FILTER ||| flags.WHITELIST_FILTER)
          Statics.init).1.log "[12:00:00]" LogType.Warning (Arg.text "hi") [] st).map
        Prod.snd) = some [] := by
  decide

/-- C6, amended: with `LOGTYPE_FILTER` and `WHITELIST_FILTER` set, `log` at a level
whose entry of the severity filter table is true is not suppressed by the
severity filter; it writes its full line when `LOGTAG_FILTER` is clear or the
marker of the logger's tag is true as well, and nothing when `LOGTAG_FILTER` is
set and the marker of the tag is false. -/
theorem whitelisted_level_passes_severity (lg : Logger) (p_time : String) (p_logType : LogType)
    (p_arg : Arg) (p_args : List Arg) (st : Statics)
    (hfilter : lg.isFlagSet flags.LOGTYPE_FILTER = true)
    (hpolarity : lg.isFlagSet flags.WHITELIST_FILTER = true)
    (hmarked : st.typeFilterAt p_logType.toSizeT = some true) :
    lg.filter p_logType st = some false ∧
    lg.log p_time p_logType p_arg p_args st =
      some (if lg.isFlagSet flags.LOGTAG_FILTER then (st.tagFilterAt lg.m_logTag).2 else st,
        if lg.isFlagSet flags.LOGTAG_FILTER && !(st.tagFilterAt lg.m_logTag).1 then []
        else [lg.message p_time p_logType (Logger.fmt p_arg p_args)]) := by
  refine ⟨by simp [Logger.filter, hmarked, hpolarity], ?_⟩
  rw [Logger.log, output_eq lg p_logType _ st true hmarked]
  cases hg : lg.isFlagSet flags.LOGTAG_FILTER <;> cases (st.tagFilterAt lg.m_logTag).1 <;>
    simp [hfilter, hpolarity]

theorem whitelisted_level_passes_severity_witness :
    (Logger.mk "X" (flags.LOGTYPE_FILTER ||| flags.WHITELIST_FILTER)).isFlagSet
      flags.LOGTYPE_FILTER = true ∧
    (Logger.mk "X" (flags.LOGTYPE_FILTER ||| flags.WHITELIST_FILTER)).isFlagSet
      flags.WHITELIST_FILTER = true ∧
    (Statics.mk (fun _ => true) (fun _ => none)).typeFilterAt LogType.Fatal.toSizeT = some true ∧
    ((Logger.mk "X" (flags.LOGTYPE_FILTER ||| flags.WHITELIST_FILTER)).log "[12:00:00]"
        LogType.Fatal (Arg.text "hi") [] (Statics.mk (fun _ => true) (fun _ => none))).map
      Prod.snd = some ["hi"] := by
  refine ⟨by decide, by decide, by decide, ?_⟩
  rw [(whitelisted_level_passes_severity
    (Logger.mk "X" (flags.LOGTYPE_FILTER ||| flags.WHITELIST_FILTER)) "[12:00:00]"
    LogType.Fatal (Arg.text "hi") [] (Statics.mk (fun _ => true) (fun _ => none))
    (by decide) (by decide) (by decide)).2]
  decide

/-! ## The tag filter -/

/-- C7: two loggers with the same tag `T` (as the constructor leaves them), both
with `LOGTAG_FILTER` set and `WHITELIST_FILTER` clear, read one entry of the tag
filter table.  After the static `setFilter(T)` every `log` call at a severity
level on either logger writes nothing; after a following `clearFilter(T)` the
tag filter suppresses neither, and either logger writes its full line unless its
own severity filter drops it. -/
theorem same_tag_shares_entry (lg1 lg2 : Logger) (T : String) (p_time : String)
    (p_logType : LogType) (p_arg : Arg) (p_args : List Arg) (st : Statics)
    (htag1 : lg1.m_logTag = T) (htag2 : lg2.m_logTag = T)
    (hfilter1 : lg1.isFlagSet flags.LOGTAG_FILTER = true)
    (hpolarity1 : lg1.isFlagSet flags.WHITELIST_FILTER = false)
    (hfilter2 : lg2.isFlagSet flags.LOGTAG_FILTER = true)
    (hpolarity2 : lg2.isFlagSet flags.WHITELIST_FILTER = false)
    (hlevel : p_logType ≠ LogType.LogTypeCount) :
    (Logger.new T lg1.m_flags st).1 = lg1 ∧ (Logger.new T lg2.m_flags st).1 = lg2 ∧
    (∀ lg, lg = lg1 ∨ lg = lg2 →
      lg.log p_time p_logType p_arg p_args (Logger.setFilterTag T st) =
        some (Logger.setFilterTag T st, []) ∧
      lg.filterTag (Logger.clearFilterTag T (Logger.setFilterTag T st)) =
        (false, Logger.clearFilterTag T (Logger.setFilterTag T st)) ∧
      ∃ sev : Bool,
        (Logger.clearFilterTag T (Logger.setFilterTag T st)).typeFilterAt p_logType.toSizeT
          = some sev ∧
        lg.log p_time p_logType p_arg p_args (Logger.clearFilterTag T (Logger.setFilterTag T st)) =
          some (Logger.clearFilterTag T (Logger.setFilterTag T st),
            if lg.isFlagSet flags.LOGTYPE_FILTER && sev then []
            else [lg.message p_time p_logType (Logger.fmt p_arg p_args)])) := by
  have hlt := toSizeT_lt p_logType hlevel
  have key : ∀ lg : Logger, lg.m_logTag = T → lg.isFlagSet flags.LOGTAG_FILTER = true →
      lg.isFlagSet flags.WHITELIST_FILTER = false →
      lg.log p_time p_logType p_arg p_args (Logger.setFilterTag T st) =
        some (Logger.setFilterTag T st, []) ∧
      lg.filterTag (Logger.clearFilterTag T (Logger.setFilterTag T st)) =
        (false, Logger.clearFilterTag T (Logger.setFilterTag T st)) ∧
      ∃ sev : Bool,
        (Logger.clearFilterTag T (Logger.setFilterTag T st)).typeFilterAt p_logType.toSizeT
          = some sev ∧
        lg.log p_time p_logType p_arg p_args (Logger.clearFilterTag T (Logger.setFilterTag T st)) =
          some (Logger.clearFilterTag T (Logger.setFilterTag T st),
            if lg.isFlagSet flags.LOGTYPE_FILTER && sev then []
            else [lg.message p_time p_logType (Logger.fmt p_arg p_args)]) := by
    intro lg htag hfilter hpolarity
    have hset : (Logger.setFilterTag T st).tagFilterAt lg.m_logTag =
        (true, Logger.setFilterTag T st) := by
      simp [Statics.tagFilterAt, Logger.setFilterTag, Statics.tagFilterAssign, htag]
    have hclr : (Logger.clearFilterTag T (Logger.setFilterTag T st)).tagFilterAt lg.m_logTag =
        (false, Logger.clearFilterTag T (Logger.setFilterTag T st)) := by
      simp [Statics.tagFilterAt, Logger.clearFilterTag, Logger.setFilterTag,
        Statics.tagFilterAssign, htag]
    refine ⟨?_, ?_, _, typeFilterAt_of_lt _ _ hlt, ?_⟩
    · rw [Logger.log, output_eq lg p_logType _ _ _ (typeFilterAt_of_lt _ _ hlt), hset]
      cases lg.isFlagSet flags.LOGTYPE_FILTER <;>
        cases st.s_logTypeFilter ⟨p_logType.toSizeT, hlt⟩ <;>
        simp [hfilter, hpolarity, Logger.setFilterTag, Statics.tagFilterAssign]
    · simp [Logger.filterTag, hclr, hpolarity]
    · rw [Logger.log, output_eq lg p_logType _ _ _ (typeFilterAt_of_lt _ _ hlt), hclr]
      cases lg.isFlagSet flags.LOGTYPE_FILTER <;> simp [hfilter, hpolarity]
  refine ⟨?_, ?_, ?_⟩
  · cases lg1
    cases htag1
    rfl
  · cases lg2
    cases htag2
    rfl
  · rintro lg (rfl | rfl)
    · exact key _ htag1 hfilter1 hpolarity1
    · exact key _ htag2 hfilter2 hpolarity2

theorem same_tag_shares_entry_witness :
    (Logger.mk "net" flags.DEFAULTS).m_logTag = "net" ∧
    (Logger.mk "net" flags.LOGTAG_FILTER).m_logTag = "net" ∧
    (Logger.mk "net" flags.DEFAULTS).isFlagSet flags.LOGTAG_FILTER = true ∧
    (Logger.mk "net" flags.DEFAULTS).isFlagSet flags.WHITELIST_FILTER = false ∧
    (Logger.mk "net" flags.LOGTAG_FILTER).isFlagSet flags.LOGTAG_FILTER = true ∧
    (Logger.mk "net" flags.LOGTAG_FILTER).isFlagSet flags.WHITELIST_FILTER = false ∧
    LogType.Info ≠ LogType.LogTypeCount ∧
    (Logger.mk "net" flags.DEFAULTS).log "[12:00:00]" LogType.Info (Arg.text "up") []
        (Logger.setFilterTag "net" Statics.init) =
      some (Logger.setFilterTag "net" Statics.init, []) ∧
    (Logger.mk "net" flags.LOGTAG_FILTER).log "[12:00:00]" LogType.Info (Arg.text "up") []
        (Logger.setFilterTag "net" Statics.init) =
      some (Logger.setFilterTag "net" Statics.init, []) :=
  ⟨rfl, rfl, by decide, by decide, by decide, by decide, by decide,
    ((same_tag_shares_entry (Logger.mk "net" flags.DEFAULTS) (Logger.mk "net" flags.LOGTAG_FILTER)
      "net" "[12:00:00]" LogType.Info (Arg.text "up") [] Statics.init rfl rfl (by decide)
      (by decide) (by decide) (by decide) (by decide)).2.2 _ (Or.inl rfl)).1,
    ((same_tag_shares_entry (Logger.mk "net" flags.DEFAULTS) (Logger.mk "net" flags.LOGTAG_FILTER)
      "net" "[12:00:00]" LogType.Info (Arg.text "up") [] Statics.init rfl rfl (by decide)
      (by decide) (by decide) (by decide) (by decide)).2.2 _ (Or.inr rfl)).1⟩

/-! ## The default flag set -/

/-- C8: `DEFAULTS` is `0x17F`, every named flag except `WHITELIST_FILTER` is set in
it, and while no severity level and no tag is marked, a logger whose flag set is
`DEFAULTS` (the default instance `Main` with tag `"LIMA"` is one) writes its full
line for every severity level and every argument list. -/
theorem defaults_suppress_nothing (lg : Logger) (p_time : String) (p_logType : LogType)
    (p_arg : Arg) (p_args : List Arg) (st : Statics)
    (hflags : lg.m_flags = flags.DEFAULTS)
    (hlevel : p_logType ≠ LogType.LogTypeCount)
    (hsev : ∀ i, st.s_logTypeFilter i = false)
    (htags : ∀ k, st.s_logTagFilter k ≠ some true) :
    flags.DEFAULTS = 0x17F ∧
    lg.isFlagSet flags.TIMESTAMPS_PREFIX = true ∧
    lg.isFlagSet flags.LOGTYPES_PREFIX = true ∧
    lg.isFlagSet flags.WHITESPACE_PREFIX = true ∧
    lg.isFlagSet flags.LOGTAG_PREFIX = true ∧
    lg.isFlagSet flags.LOGTYPE_COLORS = true ∧
    lg.isFlagSet flags.LOGTYPE_FILTER = true ∧
    lg.isFlagSet flags.LOGTAG_FILTER = true ∧
    lg.isFlagSet flags.END_OF_LINE_SUFFIX = true ∧
    lg.isFlagSet flags.WHITELIST_FILTER = false ∧
    Logger.Main.1.m_flags = flags.DEFAULTS ∧ Logger.Main.1.m_logTag = "LIMA" ∧
    (lg.log p_time p_logType p_arg p_args st).map Prod.snd =
      some [lg.message p_time p_logType (Logger.fmt p_arg p_args)] := by
  have hflag : ∀ f, lg.isFlagSet f = (0 != (flags.DEFAULTS &&& f)) := by
    intro f
    simp [Logger.isFlagSet, hflags]
  have hlt := toSizeT_lt p_logType hlevel
  have hmark : (st.tagFilterAt lg.m_logTag).1 = false := by
    unfold Statics.tagFilterAt
    cases hk : st.s_logTagFilter lg.m_logTag with
    | none => rfl
    | some b =>
      cases b
      · rfl
      · exact absurd hk (htags _)
  refine ⟨by decide, ?_, ?_, ?_, ?_, ?_, ?_, ?_, ?_, ?_, rfl, rfl, ?_⟩
  any_goals (rw [hflag]; decide)
  have hw : lg.isFlagSet flags.WHITELIST_FILTER = false := by
    rw [hflag]
    decide
  rw [Logger.log, output_eq lg p_logType _ st _ (typeFilterAt_of_lt st _ hlt), hsev, hmark, hw]
  simp

theorem defaults_suppress_nothing_witness :
    Logger.Main.1.m_flags = flags.DEFAULTS ∧
    LogType.Fatal ≠ LogType.LogTypeCount ∧
    (∀ i, Logger.Main.2.s_logTypeFilter i = false) ∧
    (∀ k, Logger.Main.2.s_logTagFilter k ≠ some true) ∧
    (Logger.Main.1.log "[12:00:00]" LogType.Fatal (Arg.text "disk ") [Arg.int 3] Logger.Main.2).map
      Prod.snd = some ["\x1b[37;41m[12:00:00][Fatal][LIMA]    disk 3\x1b[0m\n"] := by
  have hsev : ∀ i, Logger.Main.2.s_logTypeFilter i = false := fun _ => rfl
  have htags : ∀ k, Logger.Main.2.s_logTagFilter k ≠ some true := by
    intro k
    by_cases hk : k = "LIMA" <;>
      simp [Logger.Main, Logger.new, Statics.tagFilterAssign, Statics.init, Function.update, hk]
  refine ⟨rfl, by decide, hsev, htags, ?_⟩
  rw [(defaults_suppress_nothing Logger.Main.1 "[12:00:00]" LogType.Fatal (Arg.text "disk ")
    [Arg.int 3] Logger.Main.2 rfl (by decide) hsev htags).2.2.2.2.2.2.2.2.2.2.2.2]
  decide

/-! ## `setFilter` and `clearFilter` -/

/-- C9: for a severity level, `setFilter(level)` returns with the marker of the
level true and `clearFilter(level)` with it false, every other level's marker
(every other element of the array) and the whole tag table unchanged; for a tag,
registered or not, `setFilter(tag)` leaves its marker true and `clearFilter(tag)`
false, every other tag's entry and the severity table unchanged. -/
theorem setFilter_clearFilter_effect (p_logType : LogType) (p_logTag : String) (st : Statics)
    (hlevel : p_logType ≠ LogType.LogTypeCount) :
    (∃ st1, Logger.setFilter p_logType st = some st1 ∧
      st1.typeFilterAt p_logType.toSizeT = some true ∧
      (∀ other : LogType, other ≠ p_logType →
        st1.typeFilterAt other.toSizeT = st.typeFilterAt other.toSizeT) ∧
      (∀ i : Fin logTypeFilterSize, i.val ≠ p_logType.toSizeT →
        st1.s_logTypeFilter i = st.s_logTypeFilter i) ∧
      st1.s_logTagFilter = st.s_logTagFilter) ∧
    (∃ st1, Logger.clearFilter p_logType st = some st1 ∧
      st1.typeFilterAt p_logType.toSizeT = some false ∧
      (∀ other : LogType, other ≠ p_logType →
        st1.typeFilterAt other.toSizeT = st.typeFilterAt other.toSizeT) ∧
      (∀ i : Fin logTypeFilterSize, i.val ≠ p_logType.toSizeT →
        st1.s_logTypeFilter i = st.s_logTypeFilter i) ∧
      st1.s_logTagFilter = st.s_logTagFilter) ∧
    ((Logger.setFilterTag p_logTag st).s_logTagFilter p_logTag = some true ∧
      (∀ other, other ≠ p_logTag →
        (Logger.setFilterTag p_logTag st).s_logTagFilter other = st.s_logTagFilter other) ∧
      (Logger.setFilterTag p_logTag st).s_logTypeFilter = st.s_logTypeFilter) ∧
    ((Logger.clearFilterTag p_logTag st).s_logTagFilter p_logTag = some false ∧
      (∀ other, other ≠ p_logTag →
        (Logger.clearFilterTag p_logTag st).s_logTagFilter other = st.s_logTagFilter other) ∧
      (Logger.clearFilterTag p_logTag st).s_logTypeFilter = st.s_logTypeFilter) :=
  ⟨typeFilterAssign_level st p_logType true hlevel,
    typeFilterAssign_level st p_logType false hlevel,
    tagFilterAssign_effect st p_logTag true,
    tagFilterAssign_effect st p_logTag false⟩

theorem setFilter_clearFilter_effect_witness :
    LogType.Error ≠ LogType.LogTypeCount ∧
    (Logger.setFilter LogType.Error Logger.Main.2).bind
      (fun st1 => st1.typeFilterAt LogType.Error.toSizeT) = some true ∧
    (Logger.setFilterTag "net" Logger.Main.2).s_logTagFilter "net" = some true ∧
    (Logger.setFilterTag "net" Logger.Main.2).s_logTagFilter "LIMA" = some false := by
  obtain ⟨⟨st1, hset, hmark, -⟩, -, ⟨htag, hother, -⟩, -⟩ :=
    setFilter_clearFilter_effect LogType.Error "net" Logger.Main.2 (by decide)
  refine ⟨by decide, ?_, htag, ?_⟩
  · rw [hset]
    exact hmark
  · rw [hother "LIMA" (by decide)]
    decide

/-! ## The range of `LogType` -/

/-- C10, evaluated on the code: the enumerator `LogTypeCount`, which every
operation taking a `LogType` accepts, is cast to the index 6, the size of
`s_logTypeFilter`; exactly the six other enumerators index inside the array.
`setFilter(LogTypeCount)` and `clearFilter(LogTypeCount)` write past the array
and `Main.log(LogTypeCount, ...)` reads past it, whatever the tables hold, while
`str` and `color` do have a branch for it. -/
theorem LogTypeCount_indexes_past_the_array (st : Statics) (p_time : String) (p_arg : Arg)
    (p_args : List Arg) :
    LogType.LogTypeCount.toSizeT = logTypeFilterSize ∧
    (∀ p_logType : LogType,
      p_logType.toSizeT < logTypeFilterSize ↔ p_logType ≠ LogType.LogTypeCount) ∧
    st.typeFilterAt LogType.LogTypeCount.toSizeT = none ∧
    Logger.setFilter LogType.LogTypeCount st = none ∧
    Logger.clearFilter LogType.LogTypeCount st = none ∧
    Logger.Main.1.log p_time LogType.LogTypeCount p_arg p_args st = none ∧
    str LogType.LogTypeCount = "" ∧ color LogType.LogTypeCount = "\x1b[0m" := by
  refine ⟨rfl, ?_, rfl, rfl, rfl, ?_, rfl, rfl⟩
  · intro p_logType
    cases p_logType <;> decide
  · have hfilter : Logger.Main.1.isFlagSet flags.LOGTYPE_FILTER = true := by decide
    have hread : Logger.Main.1.filter LogType.LogTypeCount st = none := rfl
    simp [Logger.log, Logger.output, hfilter, hread]

/-! ## Reachable states -/

/-- A key has an entry in the tag filter table. -/
theorem tagFilterAt_of_entry (st : Statics) (k : String) (b : Bool)
    (h : st.s_logTagFilter k = some b) : st.tagFilterAt k = (b, st) := by
  simp [Statics.tagFilterAt, h]

/-- Reading `s_logTagFilter[k]` removes no entry and leaves the array alone. -/
theorem tagFilterAt_keeps (st : Statics) (k j : String)
    (h : (st.s_logTagFilter j).isSome = true) :
    ((st.tagFilterAt k).2.s_logTagFilter j).isSome = true := by
  unfold Statics.tagFilterAt
  cases hk : st.s_logTagFilter k with
  | some b => simpa using h
  | none =>
    by_cases hj : j = k
    · subst hj
      simp
    · simp [Function.update_noteq hj, h]

/-- The tables `output` returns are the ones it was given, or those after the
read `s_logTagFilter[m_logTag]`. -/
theorem output_statics (lg : Logger) (p_logType : LogType) (p_message : String)
    (st : Statics) (r : Statics × List String) (h : lg.output p_logType p_message st = some r) :
    r.1 = st ∨ r.1 = (st.tagFilterAt lg.m_logTag).2 := by
  unfold Logger.output Logger.filterTag at h
  revert h
  rcases st.tagFilterAt lg.m_logTag with ⟨marked, st1⟩
  cases (if lg.isFlagSet flags.LOGTYPE_FILTER = true then lg.filter p_logType st
      else some false) with
  | none =>
    intro h
    cases h
  | some sev =>
    cases sev <;> cases lg.isFlagSet flags.LOGTAG_FILTER <;>
      cases lg.isFlagSet flags.WHITELIST_FILTER <;> cases marked <;>
      intro h <;> simp at h <;> subst h <;> simp

/-- No call removes an entry of the tag filter table. -/
theorem step_keeps_entries (w w1 : World) (op : Op) (h : w.step op = some w1) (k : String)
    (hk : (w.statics.s_logTagFilter k).isSome = true) :
    (w1.statics.s_logTagFilter k).isSome = true := by
  have hassign : ∀ (t : String) (b : Bool),
      ((w.statics.tagFilterAssign t b).s_logTagFilter k).isSome = true := by
    intro t b
    by_cases hkt : k = t
    · simp [Statics.tagFilterAssign, hkt]
    · simp [Statics.tagFilterAssign, Function.update_noteq hkt, hk]
  have harray : ∀ (i : Nat) (b : Bool) (st : Statics),
      w.statics.typeFilterAssign i b = some st → st.s_logTagFilter = w.statics.s_logTagFilter := by
    intro i b st hst
    unfold Statics.typeFilterAssign at hst
    split at hst
    · cases hst
      rfl
    · cases hst
  cases op with
  | construct p_logTag p_flags =>
    cases h
    exact hassign p_logTag false
  | log i p_time p_logType p_arg p_args =>
    simp only [World.step] at h
    cases hlg : w.loggers[i]? with
    | none => simp [hlg] at h
    | some lg =>
      rw [hlg] at h
      cases hr : lg.log p_time p_logType p_arg p_args w.statics with
      | none => simp [hr] at h
      | some r =>
        simp only [hr, Option.map_some', Option.some.injEq] at h
        subst h
        rcases output_statics lg p_logType _ w.statics r hr with h1 | h1
        · simpa [h1] using hk
        · simpa [h1] using tagFilterAt_keeps w.statics lg.m_logTag k hk
  | setFlag i p_flag =>
    simp only [World.step] at h
    cases hlg : w.loggers[i]? with
    | none => simp [hlg] at h
    | some lg =>
      simp only [hlg, Option.some.injEq] at h
      subst h
      exact hk
  | clearFlag i p_flag =>
    simp only [World.step] at h
    cases hlg : w.loggers[i]? with
    | none => simp [hlg] at h
    | some lg =>
      simp only [hlg, Option.some.injEq] at h
      subst h
      exact hk
  | setFilter p_logType =>
    simp only [World.step, Logger.setFilter] at h
    cases hst : w.statics.typeFilterAssign p_logType.toSizeT true with
    | none => simp [hst] at h
    | some st =>
      simp only [hst, Option.map_some', Option.some.injEq] at h
      subst h
      simpa [harray _ _ _ hst] using hk
  | setFilterTag p_logTag =>
    cases h
    exact hassign p_logTag true
  | clearFilter p_logType =>
    simp only [World.step, Logger.clearFilter] at h
    cases hst : w.statics.typeFilterAssign p_logType.toSizeT false with
    | none => simp [hst] at h
    | some st =>
      simp only [hst, Option.map_some', Option.some.injEq] at h
      subst h
      simpa [harray _ _ _ hst] using hk
  | clearFilterTag p_logTag =>
    cases h
    exact hassign p_logTag false

/-- Replacing an object by one with the same tag keeps the list of tags. -/
theorem map_tag_set (l : List Logger) (i : Nat) (lg lg1 : Logger) (h : l[i]? = some lg)
    (htag : lg1.m_logTag = lg.m_logTag) :
    (l.set i lg1).map Logger.m_logTag = l.map Logger.m_logTag := by
  apply List.ext_getElem?
  intro j
  by_cases hij : i = j
  · subst hij
    obtain ⟨hlt, hget⟩ := List.getElem?_eq_some.mp h
    simp [List.getElem?_set, hlt, htag, hget]
  · simp [List.getElem?_set_ne hij]

/-- One call appends the tag it constructs with, if any, to the tags of the
objects, and every tag of an object keeps its entry. -/
theorem step_registered (w w1 : World) (op : Op) (h : w.step op = some w1)
    (hinv : ∀ T, T ∈ w.loggers.map Logger.m_logTag →
      (w.statics.s_logTagFilter T).isSome = true) :
    w1.loggers.map Logger.m_logTag = w.loggers.map Logger.m_logTag ++ op.constructedTags ∧
    ∀ T, T ∈ w1.loggers.map Logger.m_logTag → (w1.statics.s_logTagFilter T).isSome = true := by
  have htags : w1.loggers.map Logger.m_logTag =
      w.loggers.map Logger.m_logTag ++ op.constructedTags := by
    cases op with
    | construct p_logTag p_flags =>
      cases h
      simp [Op.constructedTags, Logger.new]
    | log i p_time p_logType p_arg p_args =>
      simp only [World.step] at h
      cases hlg : w.loggers[i]? with
      | none => simp [hlg] at h
      | some lg =>
        rw [hlg] at h
        cases hr : lg.log p_time p_logType p_arg p_args w.statics with
        | none => simp [hr] at h
        | some r =>
          simp only [hr, Option.map_some', Option.some.injEq] at h
          subst h
          simp [Op.constructedTags]
    | setFlag i p_flag =>
      simp only [World.step] at h
      cases hlg : w.loggers[i]? with
      | none => simp [hlg] at h
      | some lg =>
        simp only [hlg, Option.some.injEq] at h
        subst h
        simpa [Op.constructedTags] using map_tag_set w.loggers i lg (lg.setFlag p_flag) hlg rfl
    | clearFlag i p_flag =>
      simp only [World.step] at h
      cases hlg : w.loggers[i]? with
      | none => simp [hlg] at h
      | some lg =>
        simp only [hlg, Option.some.injEq] at h
        subst h
        simpa [Op.constructedTags] using map_tag_set w.loggers i lg (lg.clearFlag p_flag) hlg rfl
    | setFilter p_logType =>
      simp only [World.step] at h
      cases hst : Logger.setFilter p_logType w.statics with
      | none => simp [hst] at h
      | some st =>
        simp only [hst, Option.map_some', Option.some.injEq] at h
        subst h
        simp [Op.constructedTags]
    | setFilterTag p_logTag =>
      cases h
      simp [Op.constructedTags]
    | clearFilter p_logType =>
      simp only [World.step] at h
      cases hst : Logger.clearFilter p_logType w.statics with
      | none => simp [hst] at h
      | some st =>
        simp only [hst, Option.map_some', Option.some.injEq] at h
        subst h
        simp [Op.constructedTags]
    | clearFilterTag p_logTag =>
      cases h
      simp [Op.constructedTags]
  refine ⟨htags, ?_⟩
  intro T hT
  rw [htags, List.mem_append] at hT
  rcases hT with hT | hT
  · exact step_keeps_entries w w1 op h T (hinv T hT)
  · cases op with
    | construct p_logTag p_flags =>
      cases h
      simp only [Op.constructedTags, List.mem_singleton] at hT
      subst hT
      simp [Logger.new, Statics.tagFilterAssign]
    | _ => simp [Op.constructedTags] at hT

/-- The same along a sequence of calls. -/
theorem run_registered (ops : List Op) (w w1 : World) (h : w.run ops = some w1)
    (hinv : ∀ T, T ∈ w.loggers.map Logger.m_logTag →
      (w.statics.s_logTagFilter T).isSome = true) :
    w1.loggers.map Logger.m_logTag = w.loggers.map Logger.m_logTag ++ tagsConstructed ops ∧
    ∀ T, T ∈ w1.loggers.map Logger.m_logTag → (w1.statics.s_logTagFilter T).isSome = true := by
  induction ops generalizing w with
  | nil =>
    simp only [World.run, Option.some.injEq] at h
    subst h
    simpa [tagsConstructed] using hinv
  | cons op ops ih =>
    simp only [World.run] at h
    cases hstep : w.step op with
    | none => simp [hstep] at h
    | some w2 =>
      rw [hstep, Option.some_bind] at h
      obtain ⟨htags2, hinv2⟩ := step_registered w w2 op hstep hinv
      obtain ⟨htags1, hinv1⟩ := ih w2 h hinv2
      refine ⟨?_, hinv1⟩
      rw [htags1, htags2, tagsConstructed, List.append_assoc]

/-- No sequence of calls removes an entry of the tag filter table. -/
theorem run_keeps_entries (ops : List Op) (w w1 : World) (h : w.run ops = some w1) (k : String)
    (hk : (w.statics.s_logTagFilter k).isSome = true) :
    (w1.statics.s_logTagFilter k).isSome = true := by
  induction ops generalizing w with
  | nil =>
    simp only [World.run, Option.some.injEq] at h
    subst h
    exact hk
  | cons op ops ih =>
    simp only [World.run] at h
    cases hstep : w.step op with
    | none => simp [hstep] at h
    | some w2 =>
      rw [hstep, Option.some_bind] at h
      exact ih w2 h (step_keeps_entries w w2 op hstep k hk)

/-- The tag of `Main` has its entry when the process starts. -/
theorem init_registered (T : String) (hT : T ∈ World.init.loggers.map Logger.m_logTag) :
    (World.init.statics.s_logTagFilter T).isSome = true := by
  have hT1 : T = "LIMA" := by simpa [World.init, Logger.Main, Logger.new] using hT
  subst hT1
  decide

/-- C11: in every state reachable from the initial one by calls of the
interface, the tags of the `Logger` objects are the tag of `Main` followed by the
tags the constructions were called with, every one of them has an entry in the
tag filter table, and whatever is called afterwards no entry is removed. -/
theorem constructed_tags_stay_registered (ops : List Op) (w : World)
    (hrun : World.init.run ops = some w) :
    w.loggers.map Logger.m_logTag = "LIMA" :: tagsConstructed ops ∧
    (∀ T, T ∈ "LIMA" :: tagsConstructed ops → (w.statics.s_logTagFilter T).isSome = true) ∧
    (∀ (more : List Op) (w1 : World), w.run more = some w1 →
      ∀ k, (w.statics.s_logTagFilter k).isSome = true →
        (w1.statics.s_logTagFilter k).isSome = true) := by
  obtain ⟨htags, hinv⟩ := run_registered ops World.init w hrun init_registered
  have htags1 : w.loggers.map Logger.m_logTag = "LIMA" :: tagsConstructed ops := by
    rw [htags]
    rfl
  refine ⟨htags1, ?_, ?_⟩
  · intro T hT
    exact hinv T (htags1 ▸ hT)
  · intro more w1 hmore k hk
    exact run_keeps_entries more w w1 hmore k hk

theorem constructed_tags_stay_registered_witness :
    ∃ w : World,
      World.init.run
        [Op.construct "net" flags.DEFAULTS, Op.setFilterTag "db",
          Op.log 1 "[12:00:00]" LogType.Info (Arg.text "up") [], Op.clearFlag 1 flags.LOGTAG_FILTER,
          Op.clearFilterTag "net"] = some w ∧
      w.loggers.map Logger.m_logTag = ["LIMA", "net"] ∧
      (w.statics.s_logTagFilter "net").isSome = true := by
  obtain ⟨w, hw⟩ := Option.isSome_iff_exists.mp
    (show (World.init.run
        [Op.construct "net" flags.DEFAULTS, Op.setFilterTag "db",
          Op.log 1 "[12:00:00]" LogType.Info (Arg.text "up") [], Op.clearFlag 1 flags.LOGTAG_FILTER,
          Op.clearFilterTag "net"]).isSome = true by decide)
  exact ⟨w, hw, (constructed_tags_stay_registered _ w hw).1,
    (constructed_tags_stay_registered _ w hw).2.1 "net" (by decide)⟩

/-! ## Bits of the flag set -/

/-- The test `isFlagSet(1 << k)` reads bit `k` of `m_flags`. -/
theorem isFlagSet_bit (lg : Logger) (k : Nat) :
    lg.isFlagSet (1 <<< k) = lg.m_flags.testBit k := by
  unfold Logger.isFlagSet
  rw [Nat.one_shiftLeft, Nat.and_two_pow]
  cases lg.m_flags.testBit k
  · simp
  · have hpos : 0 < 2 ^ k := Nat.two_pow_pos k
    have hne : (0 : Nat) ≠ 2 ^ k := by omega
    simpa using hne

/-- Bit `i` of `~p_flag`. -/
theorem testBit_bitNot (p_flag : flag) (i : Nat) :
    (bitNot p_flag).testBit i = (decide (i < 32) && !p_flag.testBit i) := by
  unfold bitNot flagBits
  rw [Nat.testBit_xor, Nat.testBit_two_pow_sub_one, Nat.testBit_mod_two_pow]
  by_cases hi : i < 32 <;> simp [hi]

theorem testBit_setFlag (lg : Logger) (p_flag : flag) (i : Nat) :
    (lg.setFlag p_flag).m_flags.testBit i = (lg.m_flags.testBit i || p_flag.testBit i) := by
  simp [Logger.setFlag]

theorem testBit_clearFlag (lg : Logger) (p_flag : flag) (i : Nat) :
    (lg.clearFlag p_flag).m_flags.testBit i =
      (lg.m_flags.testBit i && (decide (i < 32) && !p_flag.testBit i)) := by
  simp [Logger.clearFlag, testBit_bitNot]

/-- Every named flag is `1 << k` for one `k` below nine. -/
theorem named_is_bit (f : flag) (hf : f ∈ namedFlags) : ∃ k, k < 9 ∧ f = 1 <<< k := by
  simp only [namedFlags, List.mem_cons, List.mem_singleton, List.not_mem_nil, or_false] at hf
  rcases hf with h | h | h | h | h | h | h | h | h
  · exact ⟨0, by decide, h⟩
  · exact ⟨1, by decide, h⟩
  · exact ⟨2, by decide, h⟩
  · exact ⟨3, by decide, h⟩
  · exact ⟨4, by decide, h⟩
  · exact ⟨5, by decide, h⟩
  · exact ⟨6, by decide, h⟩
  · exact ⟨7, by decide, h⟩
  · exact ⟨8, by decide, h⟩

theorem testBit_one_shiftLeft (k i : Nat) : (1 <<< k : Nat).testBit i = decide (k = i) := by
  rw [Nat.one_shiftLeft, Nat.testBit_two_pow]

/-- Two loggers with the same tag and the same bits are the same object state. -/
theorem logger_eq (x y : Logger) (htag : x.m_logTag = y.m_logTag)
    (hbits : ∀ i, x.m_flags.testBit i = y.m_flags.testBit i) : x = y := by
  cases x
  cases y
  simp only [Logger.mk.injEq]
  exact ⟨htag, Nat.eq_of_testBit_eq hbits⟩

/-- A 32-bit value has no bit at or above position 32. -/
theorem testBit_of_flag (m : flag) (hm : m < 2 ^ flagBits) (i : Nat) (hi : ¬ i < 32) :
    m.testBit i = false := by
  apply Nat.testBit_lt_two_pow
  have hpow : 2 ^ flagBits ≤ 2 ^ i := Nat.pow_le_pow_right (by decide) (by unfold flagBits; omega)
  exact Nat.lt_of_lt_of_le hm hpow

/-- The line and the decision of `output` depend on the flag set through the
nine bits that `prefix`, `suffix`, `output` and the two `filter` overloads test. -/
theorem log_congr (lg1 lg2 : Logger) (htag : lg1.m_logTag = lg2.m_logTag)
    (hbits : ∀ k, k < 9 → lg1.m_flags.testBit k = lg2.m_flags.testBit k) :
    (∀ p_time p_logType body,
      lg1.message p_time p_logType body = lg2.message p_time p_logType body) ∧
    (∀ p_logType p_message st,
      lg1.output p_logType p_message st = lg2.output p_logType p_message st) ∧
    (∀ p_logType st, lg1.filter p_logType st = lg2.filter p_logType st) ∧
    (∀ st, lg1.filterTag st = lg2.filterTag st) := by
  have h : ∀ k, k < 9 → lg1.isFlagSet (1 <<< k) = lg2.isFlagSet (1 <<< k) := by
    intro k hk
    rw [isFlagSet_bit, isFlagSet_bit]
    exact hbits k hk
  have h0 : lg1.isFlagSet flags.TIMESTAMPS_PREFIX = lg2.isFlagSet flags.TIMESTAMPS_PREFIX :=
    h 0 (by decide)
  have h1 : lg1.isFlagSet flags.LOGTYPES_PREFIX = lg2.isFlagSet flags.LOGTYPES_PREFIX :=
    h 1 (by decide)
  have h2 : lg1.isFlagSet flags.WHITESPACE_PREFIX = lg2.isFlagSet flags.WHITESPACE_PREFIX :=
    h 2 (by decide)
  have h3 : lg1.isFlagSet flags.LOGTAG_PREFIX = lg2.isFlagSet flags.LOGTAG_PREFIX :=
    h 3 (by decide)
  have h4 : lg1.isFlagSet flags.LOGTYPE_COLORS = lg2.isFlagSet flags.LOGTYPE_COLORS :=
    h 4 (by decide)
  have h5 : lg1.isFlagSet flags.LOGTYPE_FILTER = lg2.isFlagSet flags.LOGTYPE_FILTER :=
    h 5 (by decide)
  have h6 : lg1.isFlagSet flags.LOGTAG_FILTER = lg2.isFlagSet flags.LOGTAG_FILTER :=
    h 6 (by decide)
  have h7 : lg1.isFlagSet flags.WHITELIST_FILTER = lg2.isFlagSet flags.WHITELIST_FILTER :=
    h 7 (by decide)
  have h8 : lg1.isFlagSet flags.END_OF_LINE_SUFFIX = lg2.isFlagSet flags.END_OF_LINE_SUFFIX :=
    h 8 (by decide)
  refine ⟨?_, ?_, ?_, ?_⟩
  · intro p_time p_logType body
    simp only [Logger.message, Logger.prefix, Logger.suffix, h0, h1, h2, h3, h4, h8, htag]
  · intro p_logType p_message st
    simp only [Logger.output, Logger.filter, Logger.filterTag, h5, h6, h7, htag]
  · intro p_logType st
    simp only [Logger.filter, h7]
  · intro st
    simp only [Logger.filterTag, h7, htag]

/-- Writing back the element a list holds at a position changes nothing. -/
theorem set_self (l : List Logger) (i : Nat) (lg : Logger) (h : l[i]? = some lg) :
    l.set i lg = l := by
  apply List.ext_getElem?
  intro j
  by_cases hij : i = j
  · subst hij
    obtain ⟨hlt, hget⟩ := List.getElem?_eq_some.mp h
    simp [List.getElem?_set, hlt, hget]
  · simp [List.getElem?_set_ne hij]

/-- Clearing `1 << k` clears bit `k` and keeps every other bit below 32. -/
theorem isFlagSet_clearFlag_bit (lg : Logger) (k j : Nat) (hj : j < 32) :
    (lg.clearFlag (1 <<< k)).isFlagSet (1 <<< j) = (lg.isFlagSet (1 <<< j) && !decide (k = j)) := by
  rw [isFlagSet_bit, isFlagSet_bit, testBit_clearFlag, testBit_one_shiftLeft]
  simp [hj]

/-- Setting `1 << k` sets bit `k` and keeps every other bit. -/
theorem isFlagSet_setFlag_bit (lg : Logger) (k j : Nat) :
    (lg.setFlag (1 <<< k)).isFlagSet (1 <<< j) = (lg.isFlagSet (1 <<< j) || decide (k = j)) := by
  rw [isFlagSet_bit, isFlagSet_bit, testBit_setFlag, testBit_one_shiftLeft]

/-! ## Toggling flags -/

/-- C12: for a logger whose `END_OF_LINE_SUFFIX` flag is set, the line composed
before `clearFlag(END_OF_LINE_SUFFIX)` is the line composed after it followed by
a newline; a following `setFlag(END_OF_LINE_SUFFIX)` gives back the original
flag set and line; and in a process the first call changes the object it is
made on only (any other object and the tables are as before) and the second
call restores the state before the first. -/
theorem end_of_line_toggle (w : World) (i j : Nat) (lg other : Logger) (p_time : String)
    (p_logType : LogType) (body : String)
    (hi : w.loggers[i]? = some lg) (hj : w.loggers[j]? = some other) (hij : j ≠ i)
    (hset : lg.isFlagSet flags.END_OF_LINE_SUFFIX = true)
    (hbound : lg.m_flags < 2 ^ flagBits) :
    lg.message p_time p_logType body =
      (lg.clearFlag flags.END_OF_LINE_SUFFIX).message p_time p_logType body ++ "\n" ∧
    (lg.clearFlag flags.END_OF_LINE_SUFFIX).setFlag flags.END_OF_LINE_SUFFIX = lg ∧
    ((lg.clearFlag flags.END_OF_LINE_SUFFIX).setFlag flags.END_OF_LINE_SUFFIX).message
      p_time p_logType body = lg.message p_time p_logType body ∧
    ∃ w1, w.step (Op.clearFlag i flags.END_OF_LINE_SUFFIX) = some w1 ∧
      w1.loggers[i]? = some (lg.clearFlag flags.END_OF_LINE_SUFFIX) ∧
      w1.loggers[j]? = some other ∧
      w1.statics = w.statics ∧
      w1.step (Op.setFlag i flags.END_OF_LINE_SUFFIX) = some w := by
  have hlt : i < w.loggers.length := (List.getElem?_eq_some.mp hi).1
  have hkeep : ∀ k, k < 8 →
      (lg.clearFlag flags.END_OF_LINE_SUFFIX).isFlagSet (1 <<< k) = lg.isFlagSet (1 <<< k) := by
    intro k hk
    have hne : ¬ 8 = k := by omega
    have h := isFlagSet_clearFlag_bit lg 8 k (by omega)
    simpa [hne] using h
  have hoff : (lg.clearFlag flags.END_OF_LINE_SUFFIX).isFlagSet flags.END_OF_LINE_SUFFIX
      = false := by
    have h := isFlagSet_clearFlag_bit lg 8 8 (by decide)
    simpa using h
  have h0 : (lg.clearFlag flags.END_OF_LINE_SUFFIX).isFlagSet flags.TIMESTAMPS_PREFIX =
      lg.isFlagSet flags.TIMESTAMPS_PREFIX := hkeep 0 (by decide)
  have h1 : (lg.clearFlag flags.END_OF_LINE_SUFFIX).isFlagSet flags.LOGTYPES_PREFIX =
      lg.isFlagSet flags.LOGTYPES_PREFIX := hkeep 1 (by decide)
  have h2 : (lg.clearFlag flags.END_OF_LINE_SUFFIX).isFlagSet flags.WHITESPACE_PREFIX =
      lg.isFlagSet flags.WHITESPACE_PREFIX := hkeep 2 (by decide)
  have h3 : (lg.clearFlag flags.END_OF_LINE_SUFFIX).isFlagSet flags.LOGTAG_PREFIX =
      lg.isFlagSet flags.LOGTAG_PREFIX := hkeep 3 (by decide)
  have h4 : (lg.clearFlag flags.END_OF_LINE_SUFFIX).isFlagSet flags.LOGTYPE_COLORS =
      lg.isFlagSet flags.LOGTYPE_COLORS := hkeep 4 (by decide)
  have htag : (lg.clearFlag flags.END_OF_LINE_SUFFIX).m_logTag = lg.m_logTag := rfl
  have hback : (lg.clearFlag flags.END_OF_LINE_SUFFIX).setFlag flags.END_OF_LINE_SUFFIX = lg := by
    refine logger_eq _ lg rfl ?_
    intro b
    have hbit : lg.m_flags.testBit 8 = true := by
      rw [← isFlagSet_bit]
      exact hset
    rw [testBit_setFlag, testBit_clearFlag]
    show (lg.m_flags.testBit b && (decide (b < 32) && !(1 <<< 8 : Nat).testBit b) ||
      (1 <<< 8 : Nat).testBit b) = lg.m_flags.testBit b
    rw [testBit_one_shiftLeft]
    by_cases hb8 : 8 = b
    · subst hb8
      simp [hbit]
    · by_cases hb : b < 32
      · simp [hb8, hb]
      · simp [hb8, hb, testBit_of_flag lg.m_flags hbound b hb]
  refine ⟨?_, hback, by rw [hback], ?_⟩
  · rw [message_eq, message_eq, h0, h1, h2, h3, h4, hoff, hset, htag]
    simp [String.append_assoc]
  · refine ⟨{ w with loggers := w.loggers.set i (lg.clearFlag flags.END_OF_LINE_SUFFIX) },
      by simp only [World.step, hi], ?_, ?_, rfl, ?_⟩
    · simp [List.getElem?_set, hlt]
    · show (w.loggers.set i (lg.clearFlag flags.END_OF_LINE_SUFFIX))[j]? = some other
      rw [List.getElem?_set_ne (Ne.symm hij), hj]
    · have hget : (w.loggers.set i (lg.clearFlag flags.END_OF_LINE_SUFFIX))[i]? =
          some (lg.clearFlag flags.END_OF_LINE_SUFFIX) := by
        simp [List.getElem?_set, hlt]
      simp only [World.step, hget, hback, List.set_set, set_self w.loggers i lg hi]

theorem end_of_line_toggle_witness :
    (World.mk Logger.Main.2 [Logger.Main.1, Logger.mk "net" 0] []).loggers[0]?
      = some Logger.Main.1 ∧
    (World.mk Logger.Main.2 [Logger.Main.1, Logger.mk "net" 0] []).loggers[1]?
      = some (Logger.mk "net" 0) ∧
    (1 : Nat) ≠ 0 ∧
    Logger.Main.1.isFlagSet flags.END_OF_LINE_SUFFIX = true ∧
    Logger.Main.1.m_flags < 2 ^ flagBits ∧
    Logger.Main.1.message "[12:00:00]" LogType.Info "up" =
      (Logger.Main.1.clearFlag flags.END_OF_LINE_SUFFIX).message "[12:00:00]" LogType.Info "up"
        ++ "\n" :=
  ⟨rfl, rfl, by decide, by decide, by decide,
    (end_of_line_toggle (World.mk Logger.Main.2 [Logger.Main.1, Logger.mk "net" 0] []) 0 1
      Logger.Main.1 (Logger.mk "net" 0) "[12:00:00]" LogType.Info "up" rfl rfl (by decide)
      (by decide) (by decide)).1⟩

/-- C13: the nine named constants are the nine distinct single bits `2^0` to
`2^8`; for two distinct named flags `f` and `g` and any flag set, `isFlagSet(f)`
is true after `setFlag(f)` and false after `clearFlag(f)`, and `isFlagSet(g)` is
after either call what it was before. -/
theorem named_flags_independent (lg : Logger) (f g : flag)
    (hf : f ∈ namedFlags) (hg : g ∈ namedFlags) (hne : f ≠ g) :
    namedFlags = (List.range 9).map (fun k => 2 ^ k) ∧
    namedFlags.Nodup ∧
    (lg.setFlag f).isFlagSet f = true ∧
    (lg.clearFlag f).isFlagSet f = false ∧
    (lg.setFlag f).isFlagSet g = lg.isFlagSet g ∧
    (lg.clearFlag f).isFlagSet g = lg.isFlagSet g := by
  obtain ⟨k, hk, rfl⟩ := named_is_bit f hf
  obtain ⟨l, hl, rfl⟩ := named_is_bit g hg
  have hkl : ¬ k = l := fun h => hne (by rw [h])
  refine ⟨by decide, by decide, ?_, ?_, ?_, ?_⟩
  · rw [isFlagSet_setFlag_bit]
    simp
  · rw [isFlagSet_clearFlag_bit lg k k (by omega)]
    simp
  · rw [isFlagSet_setFlag_bit]
    simp [hkl]
  · rw [isFlagSet_clearFlag_bit lg k l (by omega)]
    simp [hkl]

theorem named_flags_independent_witness :
    flags.LOGTAG_FILTER ∈ namedFlags ∧ flags.WHITELIST_FILTER ∈ namedFlags ∧
    flags.LOGTAG_FILTER ≠ flags.WHITELIST_FILTER ∧
    (Logger.Main.1.clearFlag flags.LOGTAG_FILTER).isFlagSet flags.LOGTAG_FILTER = false ∧
    (Logger.Main.1.clearFlag flags.LOGTAG_FILTER).isFlagSet flags.WHITELIST_FILTER =
      Logger.Main.1.isFlagSet flags.WHITELIST_FILTER :=
  ⟨by decide, by decide, by decide,
    (named_flags_independent Logger.Main.1 flags.LOGTAG_FILTER flags.WHITELIST_FILTER
      (by decide) (by decide) (by decide)).2.2.2.1,
    (named_flags_independent Logger.Main.1 flags.LOGTAG_FILTER flags.WHITELIST_FILTER
      (by decide) (by decide) (by decide)).2.2.2.2.2⟩

/-- C14: a flag value with none of the nine named bits is a no-op for what a
logger prints and suppresses: after `setFlag(u)` or `clearFlag(u)` the logger
composes the same line, both `filter` overloads decide the same, and `log`
returns the same tables and the same written text as before, for every level,
argument list and state of the tables. -/
theorem unknown_bits_are_noops (lg : Logger) (u : flag) (p_time : String) (p_logType : LogType)
    (p_arg : Arg) (p_args : List Arg) (body : String) (st : Statics)
    (hu : u &&& 0x1FF = 0) :
    (lg.setFlag u).message p_time p_logType body = lg.message p_time p_logType body ∧
    (lg.clearFlag u).message p_time p_logType body = lg.message p_time p_logType body ∧
    (lg.setFlag u).filter p_logType st = lg.filter p_logType st ∧
    (lg.clearFlag u).filter p_logType st = lg.filter p_logType st ∧
    (lg.setFlag u).filterTag st = lg.filterTag st ∧
    (lg.clearFlag u).filterTag st = lg.filterTag st ∧
    (lg.setFlag u).log p_time p_logType p_arg p_args st =
      lg.log p_time p_logType p_arg p_args st ∧
    (lg.clearFlag u).log p_time p_logType p_arg p_args st =
      lg.log p_time p_logType p_arg p_args st := by
  have hbit : ∀ k, k < 9 → u.testBit k = false := by
    intro k hk
    have h := congrArg (fun n => Nat.testBit n k) hu
    have h511 : (0x1FF : Nat) = 2 ^ 9 - 1 := by decide
    simp only [Nat.testBit_and, Nat.zero_testBit, h511, Nat.testBit_two_pow_sub_one] at h
    simpa [hk] using h
  have hsetBits : ∀ k, k < 9 → (lg.setFlag u).m_flags.testBit k = lg.m_flags.testBit k := by
    intro k hk
    rw [testBit_setFlag, hbit k hk, Bool.or_false]
  have hclearBits : ∀ k, k < 9 → (lg.clearFlag u).m_flags.testBit k = lg.m_flags.testBit k := by
    intro k hk
    have hk32 : k < 32 := by omega
    rw [testBit_clearFlag, hbit k hk]
    simp [hk32]
  obtain ⟨hs1, hs2, hs3, hs4⟩ := log_congr (lg.setFlag u) lg rfl hsetBits
  obtain ⟨hc1, hc2, hc3, hc4⟩ := log_congr (lg.clearFlag u) lg rfl hclearBits
  refine ⟨hs1 _ _ _, hc1 _ _ _, hs3 _ _, hc3 _ _, hs4 _, hc4 _, ?_, ?_⟩
  · rw [Logger.log, Logger.log, hs1, hs2]
  · rw [Logger.log, Logger.log, hc1, hc2]

theorem unknown_bits_are_noops_witness :
    (0x80000200 : Nat) &&& 0x1FF = 0 ∧
    (Logger.Main.1.setFlag 0x80000200).log "[12:00:00]" LogType.Info (Arg.text "up") []
        Logger.Main.2 =
      Logger.Main.1.log "[12:00:00]" LogType.Info (Arg.text "up") [] Logger.Main.2 ∧
    (Logger.Main.1.clearFlag 0x80000200).log "[12:00:00]" LogType.Info (Arg.text "up") []
        Logger.Main.2 =
      Logger.Main.1.log "[12:00:00]" LogType.Info (Arg.text "up") [] Logger.Main.2 :=
  ⟨by decide,
    (unknown_bits_are_noops Logger.Main.1 0x80000200 "[12:00:00]" LogType.Info (Arg.text "up") []
      "" Logger.Main.2 (by decide)).2.2.2.2.2.2.1,
    (unknown_bits_are_noops Logger.Main.1 0x80000200 "[12:00:00]" LogType.Info (Arg.text "up") []
      "" Logger.Main.2 (by decide)).2.2.2.2.2.2.2⟩

/-! ## Reading the tables -/

/-- A logger whose tag has its entry leaves the tables as they are when it logs
at a severity level. -/
theorem log_keeps_statics (lg : Logger) (p_time : String) (p_logType : LogType) (p_arg : Arg)
    (p_args : List Arg) (st : Statics) (hlevel : p_logType ≠ LogType.LogTypeCount)
    (hentry : (st.s_logTagFilter lg.m_logTag).isSome = true) :
    ∃ written, lg.log p_time p_logType p_arg p_args st = some (st, written) := by
  have hlt := toSizeT_lt p_logType hlevel
  obtain ⟨b, hb⟩ := Option.isSome_iff_exists.mp hentry
  have hread := tagFilterAt_of_entry st lg.m_logTag b hb
  have hout := output_eq lg p_logType (lg.message p_time p_logType (Logger.fmt p_arg p_args)) st _
    (typeFilterAt_of_lt st _ hlt)
  rw [hread] at hout
  simp only [ite_self] at hout
  exact ⟨_, hout⟩

/-- C15: in every reachable state, for every `Logger` object whatever its flags,
`log` at a severity level returns with both filter tables exactly as they were
(same markers, same registered tags) and only appends to `std::cout`, and
`setFlag` and `clearFlag` return with both tables exactly as they were. -/
theorem reading_leaves_tables (ops : List Op) (w : World) (i : Nat) (lg : Logger)
    (p_time : String) (p_logType : LogType) (p_arg : Arg) (p_args : List Arg) (p_flag : flag)
    (hrun : World.init.run ops = some w) (hi : w.loggers[i]? = some lg)
    (hlevel : p_logType ≠ LogType.LogTypeCount) :
    (∃ written, lg.log p_time p_logType p_arg p_args w.statics = some (w.statics, written) ∧
      w.step (Op.log i p_time p_logType p_arg p_args) =
        some { w with cout := w.cout ++ written }) ∧
    (∃ w1, w.step (Op.setFlag i p_flag) = some w1 ∧ w1.statics = w.statics) ∧
    (∃ w1, w.step (Op.clearFlag i p_flag) = some w1 ∧ w1.statics = w.statics) := by
  have hinv := (run_registered ops World.init w hrun init_registered).2
  have hentry : (w.statics.s_logTagFilter lg.m_logTag).isSome = true :=
    hinv lg.m_logTag (List.mem_map.mpr ⟨lg, List.getElem?_mem hi, rfl⟩)
  obtain ⟨written, hlog⟩ :=
    log_keeps_statics lg p_time p_logType p_arg p_args w.statics hlevel hentry
  refine ⟨⟨written, hlog, ?_⟩,
    ⟨{ w with loggers := w.loggers.set i (lg.setFlag p_flag) },
      by simp only [World.step, hi], rfl⟩,
    ⟨{ w with loggers := w.loggers.set i (lg.clearFlag p_flag) },
      by simp only [World.step, hi], rfl⟩⟩
  simp only [World.step, hi, hlog, Option.map_some']

theorem reading_leaves_tables_witness :
    ∃ w : World,
      World.init.run [Op.construct "net" (flags.LOGTAG_FILTER ||| flags.WHITELIST_FILTER),
        Op.setFilterTag "db"] = some w ∧
      w.loggers[1]? = some (Logger.mk "net" (flags.LOGTAG_FILTER ||| flags.WHITELIST_FILTER)) ∧
      LogType.Info ≠ LogType.LogTypeCount ∧
      ∃ written,
        (Logger.mk "net" (flags.LOGTAG_FILTER ||| flags.WHITELIST_FILTER)).log "[12:00:00]"
          LogType.Info (Arg.text "up") [] w.statics = some (w.statics, written) := by
  refine ⟨_, rfl, rfl, by decide, ?_⟩
  obtain ⟨⟨written, hlog, -⟩, -⟩ := reading_leaves_tables
    [Op.construct "net" (flags.LOGTAG_FILTER ||| flags.WHITELIST_FILTER), Op.setFilterTag "db"]
    _ 1 (Logger.mk "net" (flags.LOGTAG_FILTER ||| flags.WHITELIST_FILTER)) "[12:00:00]"
    LogType.Info (Arg.text "up") [] 0 rfl rfl (by decide)
  exact ⟨written, hlog⟩

/-! ## Whitelist mode -/

/-- C16: while no severity level and no tag is marked (as when the process
starts), a logger with `WHITELIST_FILTER` set and at least one of `LOGTYPE_FILTER`
and `LOGTAG_FILTER` set writes nothing, at every severity level and for every
argument list: the unmarked entry is looked up as it is. -/
theorem whitelist_of_nothing_writes_nothing (lg : Logger) (p_time : String)
    (p_logType : LogType) (p_arg : Arg) (p_args : List Arg) (st : Statics)
    (hpolarity : lg.isFlagSet flags.WHITELIST_FILTER = true)
    (hfilter : lg.isFlagSet flags.LOGTYPE_FILTER = true ∨ lg.isFlagSet flags.LOGTAG_FILTER = true)
    (hlevel : p_logType ≠ LogType.LogTypeCount)
    (hsev : ∀ i, st.s_logTypeFilter i = false)
    (htags : ∀ k, st.s_logTagFilter k ≠ some true) :
    (lg.log p_time p_logType p_arg p_args st).map Prod.snd = some [] := by
  have hlt := toSizeT_lt p_logType hlevel
  have hmark : (st.tagFilterAt lg.m_logTag).1 = false := by
    unfold Statics.tagFilterAt
    cases hk : st.s_logTagFilter lg.m_logTag with
    | none => rfl
    | some b =>
      cases b
      · rfl
      · exact absurd hk (htags _)
  rw [Logger.log, output_eq lg p_logType _ st _ (typeFilterAt_of_lt st _ hlt), hsev, hmark,
    hpolarity]
  rcases hfilter with h | h <;> simp [h]

theorem whitelist_of_nothing_writes_nothing_witness :
    (Logger.mk "LIMA" (flags.DEFAULTS ||| flags.WHITELIST_FILTER)).isFlagSet
      flags.WHITELIST_FILTER = true ∧
    ((Logger.mk "LIMA" (flags.DEFAULTS ||| flags.WHITELIST_FILTER)).isFlagSet
        flags.LOGTYPE_FILTER = true ∨
      (Logger.mk "LIMA" (flags.DEFAULTS ||| flags.WHITELIST_FILTER)).isFlagSet
        flags.LOGTAG_FILTER = true) ∧
    LogType.Error ≠ LogType.LogTypeCount ∧
    (∀ i, Statics.init.s_logTypeFilter i = false) ∧
    (∀ k, Statics.init.s_logTagFilter k ≠ some true) ∧
    ((Logger.mk "LIMA" (flags.DEFAULTS ||| flags.WHITELIST_FILTER)).log "[12:00:00]"
      LogType.Error (Arg.text "disk") [] Statics.init).map Prod.snd = some [] :=
  ⟨by decide, Or.inl (by decide), by decide, fun _ => rfl, (fun _ h => nomatch h),
    whitelist_of_nothing_writes_nothing
      (Logger.mk "LIMA" (flags.DEFAULTS ||| flags.WHITELIST_FILTER)) "[12:00:00]" LogType.Error
      (Arg.text "disk") [] Statics.init (by decide) (Or.inl (by decide)) (by decide)
      (fun _ => rfl) (fun _ h => nomatch h)⟩

/-! ## A newly constructed logger -/

/-- C17: right after `Logger(T, p_flags)`, whatever `p_flags` and the tables
were, the marker of `T` is false, the entry of every other tag is what it was
and the severity array is what it was.  Hence, if `WHITELIST_FILTER` is clear in
`p_flags`, the tag filter does not suppress the new logger: `filter()` is false
and its first `log` call at a severity level writes the full line unless the
severity filter drops it. -/
theorem construct_frame (T : String) (p_flags : flag) (st : Statics) :
    (Logger.new T p_flags st).2.s_logTagFilter T = some false ∧
    (∀ k, k ≠ T → (Logger.new T p_flags st).2.s_logTagFilter k = st.s_logTagFilter k) ∧
    (Logger.new T p_flags st).2.s_logTypeFilter = st.s_logTypeFilter ∧
    ((Logger.new T p_flags st).1.isFlagSet flags.WHITELIST_FILTER = false →
      (Logger.new T p_flags st).1.filterTag (Logger.new T p_flags st).2 =
        (false, (Logger.new T p_flags st).2) ∧
      ∀ (p_time : String) (p_logType : LogType) (p_arg : Arg) (p_args : List Arg),
        p_logType ≠ LogType.LogTypeCount →
        ∃ sev : Bool, st.typeFilterAt p_logType.toSizeT = some sev ∧
          (Logger.new T p_flags st).1.log p_time p_logType p_arg p_args
              (Logger.new T p_flags st).2 =
            some ((Logger.new T p_flags st).2,
              if (Logger.new T p_flags st).1.isFlagSet flags.LOGTYPE_FILTER && sev then []
              else [(Logger.new T p_flags st).1.message p_time p_logType
                (Logger.fmt p_arg p_args)])) := by
  obtain ⟨hself, hother, harray⟩ := tagFilterAssign_effect st T false
  have hread : (Logger.new T p_flags st).2.tagFilterAt (Logger.new T p_flags st).1.m_logTag =
      (false, (Logger.new T p_flags st).2) :=
    tagFilterAt_of_entry _ _ false hself
  refine ⟨hself, hother, harray, ?_⟩
  intro hpolarity
  refine ⟨?_, ?_⟩
  · simp only [Logger.filterTag, hread, hpolarity]
    rfl
  · intro p_time p_logType p_arg p_args hlevel
    have hlt := toSizeT_lt p_logType hlevel
    have hsev : (Logger.new T p_flags st).2.typeFilterAt p_logType.toSizeT =
        some (st.s_logTypeFilter ⟨p_logType.toSizeT, hlt⟩) := typeFilterAt_of_lt _ _ hlt
    refine ⟨st.s_logTypeFilter ⟨p_logType.toSizeT, hlt⟩, typeFilterAt_of_lt st _ hlt, ?_⟩
    rw [Logger.log, output_eq _ p_logType _ _ _ hsev, hread, hpolarity]
    cases (Logger.new T p_flags st).1.isFlagSet flags.LOGTYPE_FILTER <;>
      cases st.s_logTypeFilter ⟨p_logType.toSizeT, hlt⟩ <;>
      cases (Logger.new T p_flags st).1.isFlagSet flags.LOGTAG_FILTER <;> simp

theorem construct_frame_witness :
    (Logger.new "net" flags.WHITELIST_FILTER
      (Logger.setFilterTag "net" Logger.Main.2)).1.isFlagSet flags.WHITELIST_FILTER = true ∧
    (Logger.setFilterTag "net" Logger.Main.2).s_logTagFilter "net" = some true ∧
    (Logger.new "net" flags.WHITELIST_FILTER
      (Logger.setFilterTag "net" Logger.Main.2)).2.s_logTagFilter "net" = some false ∧
    (Logger.new "net" flags.WHITELIST_FILTER
      (Logger.setFilterTag "net" Logger.Main.2)).2.s_logTagFilter "LIMA" = some false ∧
    (Logger.new "net" flags.WHITELIST_FILTER
      (Logger.setFilterTag "net" Logger.Main.2)).2.s_logTypeFilter =
      (Logger.setFilterTag "net" Logger.Main.2).s_logTypeFilter ∧
    (Logger.new "net" flags.DEFAULTS (Logger.setFilterTag "net" Logger.Main.2)).1.isFlagSet
      flags.WHITELIST_FILTER = false ∧
    LogType.Info ≠ LogType.LogTypeCount ∧
    (Logger.new "net" flags.DEFAULTS (Logger.setFilterTag "net" Logger.Main.2)).1.filterTag
        (Logger.new "net" flags.DEFAULTS (Logger.setFilterTag "net" Logger.Main.2)).2 =
      (false, (Logger.new "net" flags.DEFAULTS (Logger.setFilterTag "net" Logger.Main.2)).2) ∧
    ∃ sev : Bool,
      (Logger.setFilterTag "net" Logger.Main.2).typeFilterAt LogType.Info.toSizeT = some sev ∧
      (Logger.new "net" flags.DEFAULTS (Logger.setFilterTag "net" Logger.Main.2)).1.log
          "[12:00:00]" LogType.Info (Arg.text "up") []
          (Logger.new "net" flags.DEFAULTS (Logger.setFilterTag "net" Logger.Main.2)).2 =
        some ((Logger.new "net" flags.DEFAULTS (Logger.setFilterTag "net" Logger.Main.2)).2,
          if (Logger.new "net" flags.DEFAULTS
              (Logger.setFilterTag "net" Logger.Main.2)).1.isFlagSet flags.LOGTYPE_FILTER && sev
          then []
          else [(Logger.new "net" flags.DEFAULTS
              (Logger.setFilterTag "net" Logger.Main.2)).1.message "[12:00:00]" LogType.Info
            (Logger.fmt (Arg.text "up") [])]) :=
  ⟨by decide, by decide,
    (construct_frame "net" flags.WHITELIST_FILTER (Logger.setFilterTag "net" Logger.Main.2)).1,
    ((construct_frame "net" flags.WHITELIST_FILTER
      (Logger.setFilterTag "net" Logger.Main.2)).2.1 "LIMA" (by decide)).trans (by decide),
    (construct_frame "net" flags.WHITELIST_FILTER
      (Logger.setFilterTag "net" Logger.Main.2)).2.2.1,
    by decide, by decide,
    ((construct_frame "net" flags.DEFAULTS (Logger.setFilterTag "net" Logger.Main.2)).2.2.2
      (by decide)).1,
    ((construct_frame "net" flags.DEFAULTS (Logger.setFilterTag "net" Logger.Main.2)).2.2.2
      (by decide)).2 "[12:00:00]" LogType.Info (Arg.text "up") [] (by decide)⟩

/-! ## Masks -/

/-- On a 32-bit value `~` is the arithmetic complement. -/
theorem bitNot_eq_sub (a : flag) (ha : a < 2 ^ flagBits) : bitNot a = 2 ^ flagBits - 1 - a := by
  apply Nat.eq_of_testBit_eq
  intro i
  have hsub : 2 ^ flagBits - 1 - a = 2 ^ flagBits - (a + 1) := by
    rw [Nat.sub_sub, Nat.add_comm]
  rw [testBit_bitNot, hsub, Nat.testBit_two_pow_sub_succ ha]
  rfl

/-- C18: on 32-bit values `setFlag` is the union with the mask and `clearFlag` the
difference (`m & ~a`, `~a` being `2^32 - 1 - a`), both stay within 32 bits;
`setFlag(a | b)` equals `setFlag(a)` then `setFlag(b)` in either order,
`clearFlag(a | b)` equals `clearFlag(a)` then `clearFlag(b)` in either order, each is
idempotent, and after `setFlag(a)` then `clearFlag(a)` no bit of `a` is set and
every bit outside `a` is as before. -/
theorem masks_union_difference (lg : Logger) (a b : flag)
    (hm : lg.m_flags < 2 ^ flagBits) (ha : a < 2 ^ flagBits) (hb : b < 2 ^ flagBits) :
    (lg.setFlag a).m_flags = lg.m_flags ||| a ∧
    (lg.clearFlag a).m_flags = lg.m_flags &&& (2 ^ 32 - 1 - a) ∧
    (lg.setFlag a).m_flags < 2 ^ flagBits ∧
    (lg.clearFlag a).m_flags < 2 ^ flagBits ∧
    lg.setFlag (a ||| b) = (lg.setFlag a).setFlag b ∧
    lg.setFlag (a ||| b) = (lg.setFlag b).setFlag a ∧
    lg.clearFlag (a ||| b) = (lg.clearFlag a).clearFlag b ∧
    lg.clearFlag (a ||| b) = (lg.clearFlag b).clearFlag a ∧
    (lg.setFlag a).setFlag a = lg.setFlag a ∧
    (lg.clearFlag a).clearFlag a = lg.clearFlag a ∧
    ((lg.setFlag a).clearFlag a).m_flags &&& a = 0 ∧
    (∀ i, a.testBit i = false →
      ((lg.setFlag a).clearFlag a).m_flags.testBit i = lg.m_flags.testBit i) ∧
    (lg.setFlag (a ||| b)).m_flags < 2 ^ flagBits := by
  have hhigh : ∀ i, ¬ i < 32 → lg.m_flags.testBit i = false :=
    fun i hi => testBit_of_flag lg.m_flags hm i hi
  refine ⟨rfl, ?_, Nat.or_lt_two_pow hm ha, ?_, ?_, ?_, ?_, ?_, ?_, ?_, ?_, ?_,
    Nat.or_lt_two_pow hm (Nat.or_lt_two_pow ha hb)⟩
  · show lg.m_flags &&& bitNot a = lg.m_flags &&& (2 ^ 32 - 1 - a)
    rw [bitNot_eq_sub a ha]
    rfl
  · exact Nat.lt_of_le_of_lt Nat.and_le_left hm
  · refine logger_eq _ _ rfl ?_
    intro i
    simp only [testBit_setFlag, Nat.testBit_or, Bool.or_assoc]
  · refine logger_eq _ _ rfl ?_
    intro i
    simp only [testBit_setFlag, Nat.testBit_or]
    cases lg.m_flags.testBit i <;> cases a.testBit i <;> cases b.testBit i <;> rfl
  · refine logger_eq _ _ rfl ?_
    intro i
    simp only [testBit_clearFlag, Nat.testBit_or]
    cases lg.m_flags.testBit i <;> cases a.testBit i <;> cases b.testBit i <;>
      cases decide (i < 32) <;> rfl
  · refine logger_eq _ _ rfl ?_
    intro i
    simp only [testBit_clearFlag, Nat.testBit_or]
    cases lg.m_flags.testBit i <;> cases a.testBit i <;> cases b.testBit i <;>
      cases decide (i < 32) <;> rfl
  · refine logger_eq _ _ rfl ?_
    intro i
    simp only [testBit_setFlag]
    cases lg.m_flags.testBit i <;> cases a.testBit i <;> rfl
  · refine logger_eq _ _ rfl ?_
    intro i
    simp only [testBit_clearFlag]
    cases lg.m_flags.testBit i <;> cases a.testBit i <;> cases decide (i < 32) <;> rfl
  · apply Nat.eq_of_testBit_eq
    intro i
    simp only [Nat.testBit_and, testBit_clearFlag, testBit_setFlag, Nat.zero_testBit]
    cases lg.m_flags.testBit i <;> cases a.testBit i <;> cases decide (i < 32) <;> rfl
  · intro i hai
    rw [testBit_clearFlag, testBit_setFlag, hai]
    by_cases hi : i < 32
    · simp [hi]
    · simp [hi, hhigh i hi]

theorem masks_union_difference_witness :
    Logger.Main.1.m_flags < 2 ^ flagBits ∧ (0x80 : Nat) < 2 ^ flagBits ∧
    (0x101 : Nat) < 2 ^ flagBits ∧
    Logger.Main.1.clearFlag (0x80 ||| 0x101) =
      (Logger.Main.1.clearFlag 0x80).clearFlag 0x101 ∧
    ((Logger.Main.1.setFlag 0x80).clearFlag 0x80).m_flags &&& 0x80 = 0 :=
  ⟨by decide, by decide, by decide,
    (masks_union_difference Logger.Main.1 0x80 0x101 (by decide) (by decide)
      (by decide)).2.2.2.2.2.2.1,
    (masks_union_difference Logger.Main.1 0x80 0x101 (by decide) (by decide)
      (by decide)).2.2.2.2.2.2.2.2.2.2.1⟩

end lm
